import Mathlib

/-!
Verification development for the AMDGPU ISA disassembler
(`llvm/lib/Target/AMDGPU/Disassembler/AMDGPUDisassembler.cpp`).

The decoder is shallowly embedded: every function below is a direct
transcription of the corresponding C++ function.  External collaborators
(the generated decode tables, instruction metadata, the register file and
subtarget feature flags) are abstracted as fields of an `Env` record, as
the design treats them as read-only supplied interfaces.  Machine words
are `Nat`s; signed 64-bit immediates of `MCOperand::createImm` are `Int`s
obtained through explicit two's-complement conversion.
-/

namespace AMDGPUDisas

/-- `MCDisassembler::DecodeStatus`.  In C++ this is `Fail = 0`,
`SoftFail = 1`, `Success = 3`; a bare truth test `if (Res)` means
`Res ≠ Fail`. -/
inductive DecodeStatus where
  | Fail
  | SoftFail
  | Success
  deriving DecidableEq, Repr

/-- The C++ implicit conversion to `bool`: everything but `Fail` is true. -/
def DecodeStatus.toBool : DecodeStatus → Bool
  | .Fail => false
  | _ => true

/-- An `MCOperand`: register, immediate, or the invalid operand produced by
`errOperand` (a default-constructed `MCOperand`). -/
inductive MCOperand where
  | reg (r : Nat)
  | imm (v : Int)
  | invalid
  deriving DecidableEq, Repr

def MCOperand.isValid : MCOperand → Bool
  | .invalid => false
  | _ => true

def MCOperand.isReg : MCOperand → Bool
  | .reg _ => true
  | _ => false

def MCOperand.isImm : MCOperand → Bool
  | .imm _ => true
  | _ => false

/-- `MCOperand::getReg` (0 when not a register). -/
def MCOperand.getReg : MCOperand → Nat
  | .reg r => r
  | _ => 0

/-- `MCOperand::getImm` (0 when not an immediate; the C++ accessor is only
called on immediates). -/
def MCOperand.getImm : MCOperand → Int
  | .imm v => v
  | _ => 0

/-- An `MCInst`: opcode plus ordered operand list.  A default-constructed
`MCInst()` has opcode 0 and no operands. -/
structure MCInst where
  opcode : Nat := 0
  operands : List MCOperand := []
  deriving DecidableEq, Repr

def MCInst.getNumOperands (mi : MCInst) : Nat := mi.operands.length

/-- `MI.getOperand(i)`; out-of-range access (undefined in C++) is modelled
as the invalid operand. -/
def MCInst.getOperand (mi : MCInst) (i : Int) : MCOperand :=
  if h : 0 ≤ i ∧ i.toNat < mi.operands.length then
    mi.operands.get ⟨i.toNat, h.2⟩
  else
    .invalid

/-- Insert an operand before position `i` (`MI.insert`). -/
def MCInst.insertAt (mi : MCInst) (i : Nat) (op : MCOperand) : MCInst :=
  { mi with operands := mi.operands.insertIdx i op }

/-- Append an operand (`MI.addOperand`). -/
def MCInst.push (mi : MCInst) (op : MCOperand) : MCInst :=
  { mi with operands := mi.operands ++ [op] }

/-- Replace the operand at position `i` (`MI.getOperand(i) = Op`). -/
def MCInst.setOperand (mi : MCInst) (i : Nat) (op : MCOperand) : MCInst :=
  { mi with operands := mi.operands.set i op }

/-- Erase the operand at position `i` (`MI.erase`). -/
def MCInst.eraseAt (mi : MCInst) (i : Nat) : MCInst :=
  { mi with operands := mi.operands.eraseIdx i }

/-- Interpret a `Nat` below `2^64` as a signed 64-bit value, as
`MCOperand::createImm(int64_t)` does for bit patterns. -/
def toInt64 (n : Nat) : Int :=
  if n < 2 ^ 63 then (n : Int) else (n : Int) - 2 ^ 64

/-! ### Encoding ranges (`AMDGPU::EncValues`, external constant table) -/

def SGPR_MIN : Nat := 0
def SGPR_MAX_SI : Nat := 101
def SGPR_MAX_GFX10 : Nat := 105
def TTMP_VI_MIN : Nat := 112
def TTMP_VI_MAX : Nat := 123
def TTMP_GFX9PLUS_MIN : Nat := 108
def TTMP_GFX9PLUS_MAX : Nat := 123
def INLINE_INTEGER_C_MIN : Nat := 128
def INLINE_INTEGER_C_POSITIVE_MAX : Nat := 192
def INLINE_INTEGER_C_MAX : Nat := 208
def INLINE_FLOATING_C_MIN : Nat := 240
def INLINE_FLOATING_C_MAX : Nat := 248
def LITERAL_CONST : Nat := 255
def VGPR_MIN : Nat := 256
def VGPR_MAX : Nat := 511
def IS_VGPR : Nat := 256

/-- `DPP::DPP8_FI_0` / `DPP8_FI_1`, the two encodings that confirm a
genuine DPP8 instruction. -/
def DPP8_FI_0 : Nat := 0xE9
def DPP8_FI_1 : Nat := 0xEA

/-! ### Register classes and the operand-width enumeration -/

/-- `AMDGPUDisassembler::OpWidthTy`. -/
inductive OpWidthTy where
  | OPW32 | OPW64 | OPW96 | OPW128 | OPW160 | OPW256 | OPW288
  | OPW320 | OPW352 | OPW384 | OPW512 | OPW1024
  | OPW16 | OPWV216 | OPWV232
  deriving DecidableEq, Repr

open OpWidthTy

/-- The register-class identifiers the decoder selects between.  These
mirror the externally generated `*RegClassID` enumerators that appear in
the source. -/
inductive RCID where
  | VGPR_32 | VReg_64 | VReg_96 | VReg_128 | VReg_160 | VReg_256
  | VReg_288 | VReg_320 | VReg_352 | VReg_384 | VReg_512 | VReg_1024
  | AGPR_32 | AReg_64 | AReg_96 | AReg_128 | AReg_160 | AReg_256
  | AReg_288 | AReg_320 | AReg_352 | AReg_384 | AReg_512 | AReg_1024
  | SGPR_32 | SGPR_64 | SGPR_96 | SGPR_128 | SGPR_160 | SGPR_256
  | SGPR_288 | SGPR_320 | SGPR_352 | SGPR_384 | SGPR_512
  | TTMP_32 | TTMP_64 | TTMP_96 | TTMP_128 | TTMP_256 | TTMP_288
  | TTMP_320 | TTMP_352 | TTMP_384 | TTMP_512
  | VGPR_16
  deriving DecidableEq, Repr

/-! ### Named hardware registers (external `AMDGPU::` register enum).
Concrete distinct codes standing in for the generated enumerators. -/

def FLAT_SCR_LO : Nat := 2001
def FLAT_SCR_HI : Nat := 2002
def XNACK_MASK_LO : Nat := 2003
def XNACK_MASK_HI : Nat := 2004
def VCC_LO : Nat := 2005
def VCC_HI : Nat := 2006
def TBA_LO : Nat := 2007
def TBA_HI : Nat := 2008
def TMA_LO : Nat := 2009
def TMA_HI : Nat := 2010
def SGPR_NULL : Nat := 2011
def M0 : Nat := 2012
def EXEC_LO : Nat := 2013
def EXEC_HI : Nat := 2014
def SRC_SHARED_BASE_LO : Nat := 2015
def SRC_SHARED_LIMIT_LO : Nat := 2016
def SRC_PRIVATE_BASE_LO : Nat := 2017
def SRC_PRIVATE_LIMIT_LO : Nat := 2018
def SRC_POPS_EXITING_WAVE_ID : Nat := 2019
def SRC_VCCZ : Nat := 2020
def SRC_EXECZ : Nat := 2021
def SRC_SCC : Nat := 2022
def LDS_DIRECT : Nat := 2023
def FLAT_SCR : Nat := 2024
def XNACK_MASK : Nat := 2025
def VCC : Nat := 2026
def TBA : Nat := 2027
def TMA : Nat := 2028
def EXEC : Nat := 2029
def SRC_SHARED_BASE : Nat := 2030
def SRC_SHARED_LIMIT : Nat := 2031
def SRC_PRIVATE_BASE : Nat := 2032
def SRC_PRIVATE_LIMIT : Nat := 2033
def NoRegister : Nat := 0

/-! ### Operand names (`AMDGPU::OpName`, external enumeration) -/

inductive OpName where
  | src2_modifiers | gds | cpol | tfe | swz | vaddr0 | srsrc | rsrc
  | vdata | vdst | dmask | d16 | dim | a16 | fi | op_sel | op_sel_hi
  | neg_lo | neg_hi | old | src0_modifiers | src1_modifiers | vdst_in
  | immName | immDeferred | sdst | clamp | omod | vm | compr | src2
  | data0 | data1 | dpp8 | vdstX
  deriving DecidableEq, Repr

/-- The MIMG encoding families (`AMDGPU::MIMGEncGfx*`). -/
inductive MIMGEnc where
  | gfx6789 | gfx90a | gfx10Default | gfx10NSA | gfx11Default | gfx11NSA
  | gfx12
  deriving DecidableEq, Repr

/-- The per-opcode `MIMGInfo` record (external generated table). -/
structure MIMGInfo where
  vdataDwords : Nat := 1
  vaddrDwords : Nat := 1
  mimgEncoding : MIMGEnc := .gfx10Default
  baseOpcode : Nat := 0
  deriving Repr

/-- The `MIMGBaseOpcodeInfo` record (external generated table). -/
structure MIMGBaseOpcodeInfo where
  bvh : Bool := false
  a16 : Bool := false
  deriving Repr

/-! ### Decode tables

The generated decode tables consumed by `tryDecodeInst`, identified by
name; they are external collaborators, so a table lookup is a field of
the environment. -/

inductive TableId where
  | dpp8GFX11_96 | dpp8GFX11_FAKE16_96 | dpp8GFX12_96 | dpp8GFX12_FAKE16_96
  | dppGFX11_96 | dppGFX11_FAKE16_96 | dppGFX12_96 | dppGFX12_FAKE16_96
  | gfx11_96 | gfx12_96
  | gfx10_B_64 | dpp8_64 | dpp8GFX11_64 | dpp8GFX11_FAKE16_64
  | dpp8GFX12_64 | dpp8GFX12_FAKE16_64 | dpp_64
  | dppGFX11_64 | dppGFX11_FAKE16_64 | dppGFX12_64 | dppGFX12_FAKE16_64
  | sdwa_64 | sdwa9_64 | sdwa10_64 | gfx80_UNPACKED_64 | gfx9_DL_64
  | gfx8_32 | amdgpu_32 | gfx9_32 | gfx90A_32 | gfx10_B_32 | gfx10_32
  | gfx11_32 | gfx11_FAKE16_32 | gfx12_32 | gfx12_FAKE16_32
  | gfx940_64 | gfx90A_64 | gfx8_64 | amdgpu_64 | gfx9_64 | gfx10_64
  | gfx12_64 | gfx12_FAKE16_64 | gfx11_64 | gfx11_FAKE16_64 | wmmaGFX11_64
  deriving DecidableEq, Repr

/-- Modelled from the spec: the outcome of one `tryDecodeInst` attempt
(section 4.2), whose body lives outside this source region.  A structural
match yields the populated instruction, the count of extra literal bytes
its operand decoders consumed past the fixed-width word, and the
pending-literal state they left behind; attempts start from the original
byte window and commit bytes only on success. -/
structure TryHit where
  mi : MCInst := {}
  litBytes : Nat := 0
  hasLiteral : Bool := false
  literal : Nat := 0
  literal64 : Nat := 0

/-! ### The environment of external collaborators

Read-only interfaces the decoder consumes: subtarget feature flags,
instruction metadata (operand indices, flag bits, operand register
classes, tied-operand constraints), the register file, and MIMG metadata
tables. -/

structure Env where
  /- Subtarget feature queries. -/
  isGFX9 : Bool := false
  isGFX9Plus : Bool := false
  isGFX10 : Bool := false
  isGFX10Plus : Bool := false
  isGFX11 : Bool := false
  isGFX11Plus : Bool := false
  isGFX12Plus : Bool := false
  isVI : Bool := false
  isGFX90A : Bool := false
  hasGFX10_BEncoding : Bool := false
  hasUnpackedD16VMem : Bool := false
  hasFmaMixInsts : Bool := false
  hasGFX940Insts : Bool := false
  hasWavefrontSize64 : Bool := false
  hasPartialNSAEncoding : Bool := false
  hasNSAEncoding : Bool := false
  hasArchitectedFlatScratch : Bool := false
  hasGDS : Bool := false
  hasPackedD16 : Bool := false
  hasG16 : Bool := false
  codeObjectVersionAtLeast5 : Bool := false
  /- `MAI.getMaxInstLength(&STI)`. -/
  targetMaxInstBytes : Nat := 20
  /- Register-file metadata: number of registers in a class, the register
  at an index within a class, and the `STI`-dependent `getMCReg` map. -/
  regClassNumRegs : RCID → Nat := fun _ => 256
  regClassReg : RCID → Nat → Nat := fun _ i => i
  getMCReg : Nat → Nat := id
  /- Instruction metadata (`MCII` / generated tables). -/
  getNamedOperandIdx : Nat → OpName → Int := fun _ _ => -1
  getNumOperandsDesc : Nat → Nat := fun _ => 0
  hasNamedOperand : Nat → OpName → Bool := fun _ _ => false
  getOperandConstraintTiedTo : Nat → Nat → Int := fun _ _ => -1
  operandRegClass : Nat → Nat → RCID := fun _ _ => RCID.VGPR_32
  /- `TSFlags` bits of an opcode. -/
  tsfVOP3P : Nat → Bool := fun _ => false
  tsfVOPC : Nat → Bool := fun _ => false
  tsfVOP3 : Nat → Bool := fun _ => false
  tsfDS : Nat → Bool := fun _ => false
  tsfMUBUF : Nat → Bool := fun _ => false
  tsfFLAT : Nat → Bool := fun _ => false
  tsfSMRD : Nat → Bool := fun _ => false
  tsfMTBUF : Nat → Bool := fun _ => false
  tsfMIMG : Nat → Bool := fun _ => false
  tsfVIMAGE : Nat → Bool := fun _ => false
  tsfVSAMPLE : Nat → Bool := fun _ => false
  tsfEXP : Nat → Bool := fun _ => false
  tsfVINTERP : Nat → Bool := fun _ => false
  tsfSOPK : Nat → Bool := fun _ => false
  tsfGather4 : Nat → Bool := fun _ => false
  tsfIsAtomicRet : Nat → Bool := fun _ => false
  isMAC : Nat → Bool := fun _ => false
  isVOPC64DPP : Nat → Bool := fun _ => false
  hasGFX11Insts : Bool := false
  isInterpInregOpcode : Nat → Bool := fun _ => false
  operandTypeIsDeferredFP : Nat → Nat → Bool := fun _ _ => false
  /- MIMG metadata tables and register-file structure queries. -/
  mimgInfo : Nat → MIMGInfo := fun _ => {}
  mimgBaseOpcodeInfo : Nat → MIMGBaseOpcodeInfo := fun _ => {}
  addrSizeMIMGOp : Nat → Int → Bool → Bool → Nat := fun _ _ _ _ => 1
  getMIMGOpcode : Nat → MIMGEnc → Nat → Nat → Option Nat := fun _ _ _ _ => none
  getSubReg0 : Nat → Nat := fun _ => 0
  getMatchingSuperReg : Nat → RCID → Nat := fun _ _ => 0
  /- The table walker (spec 4.2): one attempt against one named table. -/
  tryDecode : TableId → Nat → Option TryHit := fun _ _ => none

/-- `SGPR_MAX` macro: version-dependent top of the scalar range. -/
def Env.sgprMax (env : Env) : Nat :=
  if env.isGFX10Plus then SGPR_MAX_GFX10 else SGPR_MAX_SI

/-! ### Decode-time literal state (component 4 of the design) -/

/-- The per-decode-session pending-literal scratch: `HasLiteral`,
`Literal` (32-bit) and `Literal64`. -/
structure LitState where
  hasLiteral : Bool := false
  literal : Nat := 0
  literal64 : Nat := 0
  deriving DecidableEq, Repr

/-! ### Register-operand construction -/

/-- `errOperand`: an invalid `MCOperand` carrying a diagnostic. -/
def errOperand : MCOperand := .invalid

/-- `createRegOperand(RegClassID, Val)`: bounds-check against the class
size, then look the register up. -/
def createRegOperand (env : Env) (rc : RCID) (val : Nat) : MCOperand :=
  if env.regClassNumRegs rc ≤ val then errOperand
  else .reg (env.getMCReg (env.regClassReg rc val))

/-- `createRegOperand(RegId)` for named registers. -/
def createNamedRegOperand (env : Env) (regId : Nat) : MCOperand :=
  .reg (env.getMCReg regId)

/-- The alignment shift of `createSRegOperand`: multi-dword scalar classes
consume indices in aligned groups. -/
def sregShift : RCID → Nat
  | .SGPR_32 | .TTMP_32 => 0
  | .SGPR_64 | .TTMP_64 => 1
  | _ => 2

/-- `createSRegOperand`: shift out the alignment bits (misalignment only
warns) and build the register operand. -/
def createSRegOperand (env : Env) (rc : RCID) (val : Nat) : MCOperand :=
  createRegOperand env rc (val >>> sregShift rc)

/-! ### Width-to-class selection -/

def getVgprClassId : OpWidthTy → RCID
  | OPW32 | OPW16 | OPWV216 => .VGPR_32
  | OPW64 | OPWV232 => .VReg_64
  | OPW96 => .VReg_96
  | OPW128 => .VReg_128
  | OPW160 => .VReg_160
  | OPW256 => .VReg_256
  | OPW288 => .VReg_288
  | OPW320 => .VReg_320
  | OPW352 => .VReg_352
  | OPW384 => .VReg_384
  | OPW512 => .VReg_512
  | OPW1024 => .VReg_1024

def getAgprClassId : OpWidthTy → RCID
  | OPW32 | OPW16 | OPWV216 => .AGPR_32
  | OPW64 | OPWV232 => .AReg_64
  | OPW96 => .AReg_96
  | OPW128 => .AReg_128
  | OPW160 => .AReg_160
  | OPW256 => .AReg_256
  | OPW288 => .AReg_288
  | OPW320 => .AReg_320
  | OPW352 => .AReg_352
  | OPW384 => .AReg_384
  | OPW512 => .AReg_512
  | OPW1024 => .AReg_1024

def getSgprClassId : OpWidthTy → RCID
  | OPW32 | OPW16 | OPWV216 => .SGPR_32
  | OPW64 | OPWV232 => .SGPR_64
  | OPW96 => .SGPR_96
  | OPW128 => .SGPR_128
  | OPW160 => .SGPR_160
  | OPW256 => .SGPR_256
  | OPW288 => .SGPR_288
  | OPW320 => .SGPR_320
  | OPW352 => .SGPR_352
  | OPW384 => .SGPR_384
  | OPW512 => .SGPR_512
  | OPW1024 => .SGPR_32

def getTtmpClassId : OpWidthTy → RCID
  | OPW32 | OPW16 | OPWV216 => .TTMP_32
  | OPW64 | OPWV232 => .TTMP_64
  | OPW128 => .TTMP_128
  | OPW256 => .TTMP_256
  | OPW288 => .TTMP_288
  | OPW320 => .TTMP_320
  | OPW352 => .TTMP_352
  | OPW384 => .TTMP_384
  | OPW512 => .TTMP_512
  | _ => .TTMP_32

/-- `getTTmpIdx`: offset into the trap-temp range, `-1` if outside. -/
def getTTmpIdx (env : Env) (val : Nat) : Int :=
  let tmin := if env.isGFX9Plus then TTMP_GFX9PLUS_MIN else TTMP_VI_MIN
  let tmax := if env.isGFX9Plus then TTMP_GFX9PLUS_MAX else TTMP_VI_MAX
  if tmin ≤ val ∧ val ≤ tmax then (val : Int) - tmin else -1

/-! ### Immediate decoding -/

/-- `decodeIntImmed`: the small-integer inline constants `[128, 208]`
decode through a fixed affine map split at
`INLINE_INTEGER_C_POSITIVE_MAX`. -/
def decodeIntImmed (imm : Nat) : MCOperand :=
  .imm (if imm ≤ INLINE_INTEGER_C_POSITIVE_MAX then
          (imm : Int) - INLINE_INTEGER_C_MIN
        else
          (INLINE_INTEGER_C_POSITIVE_MAX : Int) - imm)

/-- `getInlineImmVal32`: the nine fixed 32-bit float patterns. -/
def getInlineImmVal32 (imm : Nat) : Int :=
  match imm with
  | 240 => 0x3F000000
  | 241 => 0xBF000000
  | 242 => 0x3F800000
  | 243 => 0xBF800000
  | 244 => 0x40000000
  | 245 => 0xC0000000
  | 246 => 0x40800000
  | 247 => 0xC0800000
  | 248 => 0x3E22F983
  | _ => 0

/-- `getInlineImmVal64`: the nine fixed 64-bit patterns, reinterpreted as
signed 64-bit values by `createImm`. -/
def getInlineImmVal64 (imm : Nat) : Int :=
  match imm with
  | 240 => toInt64 0x3FE0000000000000
  | 241 => toInt64 0xBFE0000000000000
  | 242 => toInt64 0x3FF0000000000000
  | 243 => toInt64 0xBFF0000000000000
  | 244 => toInt64 0x4000000000000000
  | 245 => toInt64 0xC000000000000000
  | 246 => toInt64 0x4010000000000000
  | 247 => toInt64 0xC010000000000000
  | 248 => toInt64 0x3FC45F306DC9C882
  | _ => 0

/-- `getInlineImmVal16`: the nine fixed 16-bit patterns. -/
def getInlineImmVal16 (imm : Nat) : Int :=
  match imm with
  | 240 => 0x3800
  | 241 => 0xB800
  | 242 => 0x3C00
  | 243 => 0xBC00
  | 244 => 0x4000
  | 245 => 0xC000
  | 246 => 0x4400
  | 247 => 0xC400
  | 248 => 0x3118
  | _ => 0

/-- `decodeFPImmed`: select the pattern table by immediate width. -/
def decodeFPImmed (immWidth : Nat) (imm : Nat) : MCOperand :=
  match immWidth with
  | 0 => .imm (getInlineImmVal32 imm)
  | 32 => .imm (getInlineImmVal32 imm)
  | 64 => .imm (getInlineImmVal64 imm)
  | 16 => .imm (getInlineImmVal16 imm)
  | _ => .invalid

/-! ### Byte-window reading -/

/-- Little-endian word of `n` bytes at the front of `bytes`
(`eatBytes` / `eat12Bytes` value). -/
def leWord (bytes : List Nat) (n : Nat) : Nat :=
  (List.range n).foldr (fun i acc => acc + bytes.getD i 0 <<< (8 * i)) 0

/-- `decodeLiteralConstant`: on first use, consume a trailing 32-bit word
from the instruction stream; `ExtendFP64` shifts it into the high half.
Returns the operand, the updated literal state and the remaining bytes. -/
def decodeLiteralConstant (st : LitState) (bytes : List Nat)
    (extendFP64 : Bool) : MCOperand × LitState × List Nat :=
  if st.hasLiteral then
    (.imm (toInt64 (if extendFP64 then st.literal64 else st.literal)), st, bytes)
  else if bytes.length < 4 then
    (errOperand, st, bytes)
  else
    let lit := leWord bytes 4
    let lit64 := if extendFP64 then lit <<< 32 else lit
    (.imm (toInt64 (if extendFP64 then lit64 else lit)),
     { hasLiteral := true, literal := lit, literal64 := lit64 },
     bytes.drop 4)

/-- `decodeMandatoryLiteralConstant`: literals for instructions that always
carry one in the encoding.  A second deferred-literal reference in the
same decode call must agree with the stored value, otherwise the operand
is an error operand. -/
def decodeMandatoryLiteralConstant (st : LitState) (val : Nat) :
    MCOperand × LitState :=
  if st.hasLiteral ∧ st.literal ≠ val then
    (errOperand, st)
  else
    (.imm val, { st with hasLiteral := true, literal := val })

/-! ### Special registers and the source-operand decoder -/

/-- `decodeSpecialReg32`. -/
def decodeSpecialReg32 (env : Env) (val : Nat) : MCOperand :=
  match val with
  | 102 => createNamedRegOperand env FLAT_SCR_LO
  | 103 => createNamedRegOperand env FLAT_SCR_HI
  | 104 => createNamedRegOperand env XNACK_MASK_LO
  | 105 => createNamedRegOperand env XNACK_MASK_HI
  | 106 => createNamedRegOperand env VCC_LO
  | 107 => createNamedRegOperand env VCC_HI
  | 108 => createNamedRegOperand env TBA_LO
  | 109 => createNamedRegOperand env TBA_HI
  | 110 => createNamedRegOperand env TMA_LO
  | 111 => createNamedRegOperand env TMA_HI
  | 124 => createNamedRegOperand env (if env.isGFX11Plus then SGPR_NULL else M0)
  | 125 => createNamedRegOperand env (if env.isGFX11Plus then M0 else SGPR_NULL)
  | 126 => createNamedRegOperand env EXEC_LO
  | 127 => createNamedRegOperand env EXEC_HI
  | 235 => createNamedRegOperand env SRC_SHARED_BASE_LO
  | 236 => createNamedRegOperand env SRC_SHARED_LIMIT_LO
  | 237 => createNamedRegOperand env SRC_PRIVATE_BASE_LO
  | 238 => createNamedRegOperand env SRC_PRIVATE_LIMIT_LO
  | 239 => createNamedRegOperand env SRC_POPS_EXITING_WAVE_ID
  | 251 => createNamedRegOperand env SRC_VCCZ
  | 252 => createNamedRegOperand env SRC_EXECZ
  | 253 => createNamedRegOperand env SRC_SCC
  | 254 => createNamedRegOperand env LDS_DIRECT
  | _ => errOperand

/-- `decodeSpecialReg64`. -/
def decodeSpecialReg64 (env : Env) (val : Nat) : MCOperand :=
  match val with
  | 102 => createNamedRegOperand env FLAT_SCR
  | 104 => createNamedRegOperand env XNACK_MASK
  | 106 => createNamedRegOperand env VCC
  | 108 => createNamedRegOperand env TBA
  | 110 => createNamedRegOperand env TMA
  | 124 => if env.isGFX11Plus then createNamedRegOperand env SGPR_NULL
           else errOperand
  | 125 => if ¬env.isGFX11Plus then createNamedRegOperand env SGPR_NULL
           else errOperand
  | 126 => createNamedRegOperand env EXEC
  | 235 => createNamedRegOperand env SRC_SHARED_BASE
  | 236 => createNamedRegOperand env SRC_SHARED_LIMIT
  | 237 => createNamedRegOperand env SRC_PRIVATE_BASE
  | 238 => createNamedRegOperand env SRC_PRIVATE_LIMIT
  | 239 => createNamedRegOperand env SRC_POPS_EXITING_WAVE_ID
  | 251 => createNamedRegOperand env SRC_VCCZ
  | 252 => createNamedRegOperand env SRC_EXECZ
  | 253 => createNamedRegOperand env SRC_SCC
  | _ => errOperand

/-- `decodeNonVGPRSrcOp`: the priority cascade over a sub-256 raw source
field — SGPR, then TTMP, then inline integer, inline float, the literal
sentinel, and finally the named special registers. -/
def decodeNonVGPRSrcOp (env : Env) (width : OpWidthTy) (val : Nat)
    (mandatoryLiteral : Bool) (immWidth : Nat) (isFP : Bool)
    (st : LitState) (bytes : List Nat) : MCOperand × LitState × List Nat :=
  if val ≤ env.sgprMax then
    (createSRegOperand env (getSgprClassId width) (val - SGPR_MIN), st, bytes)
  else if 0 ≤ getTTmpIdx env val then
    (createSRegOperand env (getTtmpClassId width) (getTTmpIdx env val).toNat,
     st, bytes)
  else if INLINE_INTEGER_C_MIN ≤ val ∧ val ≤ INLINE_INTEGER_C_MAX then
    (decodeIntImmed val, st, bytes)
  else if INLINE_FLOATING_C_MIN ≤ val ∧ val ≤ INLINE_FLOATING_C_MAX then
    (decodeFPImmed immWidth val, st, bytes)
  else if val = LITERAL_CONST then
    if mandatoryLiteral then
      (.imm LITERAL_CONST, st, bytes)
    else
      decodeLiteralConstant st bytes (isFP ∧ immWidth = 64)
  else
    match width with
    | OPW32 | OPW16 | OPWV216 => (decodeSpecialReg32 env val, st, bytes)
    | OPW64 | OPWV232 => (decodeSpecialReg64 env val, st, bytes)
    | _ => (.invalid, st, bytes)

/-- `decodeSrcOp`: strip the AGPR bit, dispatch VGPR/AGPR ranges directly,
fall through to `decodeNonVGPRSrcOp` otherwise. -/
def decodeSrcOp (env : Env) (width : OpWidthTy) (val0 : Nat)
    (mandatoryLiteral : Bool) (immWidth : Nat) (isFP : Bool)
    (st : LitState) (bytes : List Nat) : MCOperand × LitState × List Nat :=
  let isAGPR := val0 &&& 512 ≠ 0
  let val := val0 &&& 511
  if VGPR_MIN ≤ val ∧ val ≤ VGPR_MAX then
    (createRegOperand env
       (if isAGPR then getAgprClassId width else getVgprClassId width)
       (val - VGPR_MIN), st, bytes)
  else
    decodeNonVGPRSrcOp env width (val &&& 0xFF) mandatoryLiteral immWidth
      isFP st bytes

/-! ## Kernel descriptor decoder (component 7)

Offsets and bit-field masks of the fixed 64-byte kernel descriptor record
(`llvm/Support/AMDHSAKernelDescriptor.h`, an external layout table
consumed by the decoder). -/

def GROUP_SEGMENT_FIXED_SIZE_OFFSET : Nat := 0
def PRIVATE_SEGMENT_FIXED_SIZE_OFFSET : Nat := 4
def KERNARG_SIZE_OFFSET : Nat := 8
def RESERVED0_OFFSET : Nat := 12
def KERNEL_CODE_ENTRY_BYTE_OFFSET_OFFSET : Nat := 16
def RESERVED1_OFFSET : Nat := 24
def COMPUTE_PGM_RSRC3_OFFSET : Nat := 44
def COMPUTE_PGM_RSRC1_OFFSET : Nat := 48
def COMPUTE_PGM_RSRC2_OFFSET : Nat := 52
def KERNEL_CODE_PROPERTIES_OFFSET : Nat := 56
def KERNARG_PRELOAD_OFFSET : Nat := 58
def RESERVED3_OFFSET : Nat := 60

def COMPUTE_PGM_RSRC1_GRANULATED_WORKITEM_VGPR_COUNT : Nat := 0x3F
def COMPUTE_PGM_RSRC1_GRANULATED_WAVEFRONT_SGPR_COUNT : Nat := 0x3C0
def COMPUTE_PGM_RSRC1_PRIORITY : Nat := 0xC00
def COMPUTE_PGM_RSRC1_FLOAT_ROUND_MODE_32 : Nat := 0x3000
def COMPUTE_PGM_RSRC1_FLOAT_ROUND_MODE_16_64 : Nat := 0xC000
def COMPUTE_PGM_RSRC1_FLOAT_DENORM_MODE_32 : Nat := 0x30000
def COMPUTE_PGM_RSRC1_FLOAT_DENORM_MODE_16_64 : Nat := 0xC0000
def COMPUTE_PGM_RSRC1_PRIV : Nat := 0x100000
def COMPUTE_PGM_RSRC1_GFX6_GFX11_ENABLE_DX10_CLAMP : Nat := 0x200000
def COMPUTE_PGM_RSRC1_DEBUG_MODE : Nat := 0x400000
def COMPUTE_PGM_RSRC1_GFX6_GFX11_ENABLE_IEEE_MODE : Nat := 0x800000
def COMPUTE_PGM_RSRC1_BULKY : Nat := 0x1000000
def COMPUTE_PGM_RSRC1_CDBG_USER : Nat := 0x2000000
def COMPUTE_PGM_RSRC1_GFX9_PLUS_FP16_OVFL : Nat := 0x4000000
def COMPUTE_PGM_RSRC1_GFX6_GFX8_RESERVED0 : Nat := 0x4000000
def COMPUTE_PGM_RSRC1_RESERVED1 : Nat := 0x18000000
def COMPUTE_PGM_RSRC1_GFX6_GFX9_RESERVED2 : Nat := 0xE0000000
def COMPUTE_PGM_RSRC1_GFX10_PLUS_WGP_MODE : Nat := 0x20000000
def COMPUTE_PGM_RSRC1_GFX10_PLUS_MEM_ORDERED : Nat := 0x40000000
def COMPUTE_PGM_RSRC1_GFX10_PLUS_FWD_PROGRESS : Nat := 0x80000000
def COMPUTE_PGM_RSRC1_GFX12_PLUS_ENABLE_WG_RR_EN : Nat := 0x200000

def COMPUTE_PGM_RSRC2_ENABLE_PRIVATE_SEGMENT : Nat := 0x1
def COMPUTE_PGM_RSRC2_ENABLE_SGPR_WORKGROUP_ID_X : Nat := 0x80
def COMPUTE_PGM_RSRC2_ENABLE_SGPR_WORKGROUP_ID_Y : Nat := 0x100
def COMPUTE_PGM_RSRC2_ENABLE_SGPR_WORKGROUP_ID_Z : Nat := 0x200
def COMPUTE_PGM_RSRC2_ENABLE_SGPR_WORKGROUP_INFO : Nat := 0x400
def COMPUTE_PGM_RSRC2_ENABLE_VGPR_WORKITEM_ID : Nat := 0x1800
def COMPUTE_PGM_RSRC2_ENABLE_EXCEPTION_ADDRESS_WATCH : Nat := 0x2000
def COMPUTE_PGM_RSRC2_ENABLE_EXCEPTION_MEMORY : Nat := 0x4000
def COMPUTE_PGM_RSRC2_GRANULATED_LDS_SIZE : Nat := 0xFF8000
def COMPUTE_PGM_RSRC2_ENABLE_EXCEPTION_IEEE_754_FP_INVALID_OPERATION : Nat := 0x1000000
def COMPUTE_PGM_RSRC2_ENABLE_EXCEPTION_FP_DENORMAL_SOURCE : Nat := 0x2000000
def COMPUTE_PGM_RSRC2_ENABLE_EXCEPTION_IEEE_754_FP_DIVISION_BY_ZERO : Nat := 0x4000000
def COMPUTE_PGM_RSRC2_ENABLE_EXCEPTION_IEEE_754_FP_OVERFLOW : Nat := 0x8000000
def COMPUTE_PGM_RSRC2_ENABLE_EXCEPTION_IEEE_754_FP_UNDERFLOW : Nat := 0x10000000
def COMPUTE_PGM_RSRC2_ENABLE_EXCEPTION_IEEE_754_FP_INEXACT : Nat := 0x20000000
def COMPUTE_PGM_RSRC2_ENABLE_EXCEPTION_INT_DIVIDE_BY_ZERO : Nat := 0x40000000
def COMPUTE_PGM_RSRC2_RESERVED0 : Nat := 0x80000000

def COMPUTE_PGM_RSRC3_GFX90A_ACCUM_OFFSET : Nat := 0x3F
def COMPUTE_PGM_RSRC3_GFX90A_RESERVED0 : Nat := 0xFFC0
def COMPUTE_PGM_RSRC3_GFX90A_TG_SPLIT : Nat := 0x10000
def COMPUTE_PGM_RSRC3_GFX90A_RESERVED1 : Nat := 0xFFFE0000
def COMPUTE_PGM_RSRC3_GFX10_GFX11_SHARED_VGPR_COUNT : Nat := 0xF
def COMPUTE_PGM_RSRC3_GFX12_PLUS_RESERVED0 : Nat := 0xF
def COMPUTE_PGM_RSRC3_GFX11_INST_PREF_SIZE : Nat := 0x3F0
def COMPUTE_PGM_RSRC3_GFX11_TRAP_ON_START : Nat := 0x400
def COMPUTE_PGM_RSRC3_GFX11_TRAP_ON_END : Nat := 0x800
def COMPUTE_PGM_RSRC3_GFX12_PLUS_INST_PREF_SIZE : Nat := 0xFF0
def COMPUTE_PGM_RSRC3_GFX10_RESERVED1 : Nat := 0xFF0
def COMPUTE_PGM_RSRC3_GFX10_PLUS_RESERVED2 : Nat := 0x1000
def COMPUTE_PGM_RSRC3_GFX12_PLUS_GLG_EN : Nat := 0x2000
def COMPUTE_PGM_RSRC3_GFX10_GFX11_RESERVED3 : Nat := 0x2000
def COMPUTE_PGM_RSRC3_GFX10_PLUS_RESERVED4 : Nat := 0x7FFFC000
def COMPUTE_PGM_RSRC3_GFX11_PLUS_IMAGE_OP : Nat := 0x80000000
def COMPUTE_PGM_RSRC3_GFX10_RESERVED5 : Nat := 0x80000000

def KERNEL_CODE_PROPERTY_ENABLE_SGPR_PRIVATE_SEGMENT_BUFFER : Nat := 0x1
def KERNEL_CODE_PROPERTY_ENABLE_SGPR_DISPATCH_PTR : Nat := 0x2
def KERNEL_CODE_PROPERTY_ENABLE_SGPR_QUEUE_PTR : Nat := 0x4
def KERNEL_CODE_PROPERTY_ENABLE_SGPR_KERNARG_SEGMENT_PTR : Nat := 0x8
def KERNEL_CODE_PROPERTY_ENABLE_SGPR_DISPATCH_ID : Nat := 0x10
def KERNEL_CODE_PROPERTY_ENABLE_SGPR_FLAT_SCRATCH_INIT : Nat := 0x20
def KERNEL_CODE_PROPERTY_ENABLE_SGPR_PRIVATE_SEGMENT_SIZE : Nat := 0x40
def KERNEL_CODE_PROPERTY_RESERVED0 : Nat := 0x380
def KERNEL_CODE_PROPERTY_ENABLE_WAVEFRONT_SIZE32 : Nat := 0x400
def KERNEL_CODE_PROPERTY_USES_DYNAMIC_STACK : Nat := 0x800
def KERNEL_CODE_PROPERTY_RESERVED1 : Nat := 0xF000
def KERNARG_PRELOAD_SPEC_LENGTH : Nat := 0x7F
def KERNARG_PRELOAD_SPEC_OFFSET : Nat := 0xFF80

/-- `AMDHSA_BITS_GET`: extract a masked, shifted field. -/
def getField (w mask shift : Nat) : Nat := (w &&& mask) >>> shift

/-- Little-endian `n`-byte word read at byte offset `off` of the record
(the `DataExtractor` reads; bytes are below 256 for a well-formed
record, so disjoint-bit or equals the arithmetic sum). -/
def wordAt (d : List Nat) (off n : Nat) : Nat :=
  (List.range n).foldr (fun i acc => acc ||| d.getD (off + i) 0 <<< (8 * i)) 0

/-- A directive line of the kernel-descriptor output stream: directive (or
pseudo-directive comment) text plus the printed field value. -/
abbrev Directive := String × Nat

/-- Modelled from the spec: `AMDGPU::IsaInfo::getVGPREncodingGranule` is
not part of this source region; per 4.5 and section 8 the granule is 4 or
8, selected by the wavefront-size-32 flag read from the record (falling
back to the subtarget's wavefront-width feature). -/
def getVGPREncodingGranule (env : Env) (ws32 : Option Bool) : Nat :=
  let isWave32 := match ws32 with
    | some b => b
    | none => ¬env.hasWavefrontSize64
  if isWave32 then 8 else 4

/-- Modelled from the spec: `AMDGPU::IsaInfo::getSGPREncodingGranule` is
not part of this source region; the scalar-register granule is the fixed
encoding granule of 8. -/
def getSGPREncodingGranule (_env : Env) : Nat := 8

/-- The first directive of `decodeCOMPUTE_PGM_RSRC1`: the reconstructed
`.amdhsa_next_free_vgpr` value. -/
def rsrc1D1 (env : Env) (ws32 : Option Bool) (w : Nat) : List Directive :=
  [(".amdhsa_next_free_vgpr",
    (getField w COMPUTE_PGM_RSRC1_GRANULATED_WORKITEM_VGPR_COUNT 0 + 1) *
      getVGPREncodingGranule env ws32)]

/-- `decodeCOMPUTE_PGM_RSRC1` output up to `.amdhsa_next_free_sgpr`. -/
def rsrc1D2 (env : Env) (ws32 : Option Bool) (w : Nat) : List Directive :=
  rsrc1D1 env ws32 w ++ [(".amdhsa_reserve_vcc", 0)] ++
  (if ¬env.hasArchitectedFlatScratch then
     [((".amdhsa_reserve_flat_scratch" : String), 0)] else []) ++
  [(".amdhsa_reserve_xnack_mask", 0),
   (".amdhsa_next_free_sgpr",
    (getField w COMPUTE_PGM_RSRC1_GRANULATED_WAVEFRONT_SGPR_COUNT 6 + 1) *
      getSGPREncodingGranule env)]

/-- `decodeCOMPUTE_PGM_RSRC1` output up to the float-mode directives. -/
def rsrc1D3 (env : Env) (ws32 : Option Bool) (w : Nat) : List Directive :=
  rsrc1D2 env ws32 w ++
  [(".amdhsa_float_round_mode_32",
    getField w COMPUTE_PGM_RSRC1_FLOAT_ROUND_MODE_32 12),
   (".amdhsa_float_round_mode_16_64",
    getField w COMPUTE_PGM_RSRC1_FLOAT_ROUND_MODE_16_64 14),
   (".amdhsa_float_denorm_mode_32",
    getField w COMPUTE_PGM_RSRC1_FLOAT_DENORM_MODE_32 16),
   (".amdhsa_float_denorm_mode_16_64",
    getField w COMPUTE_PGM_RSRC1_FLOAT_DENORM_MODE_16_64 18)]

/-- ... up to `.amdhsa_dx10_clamp`. -/
def rsrc1D4 (env : Env) (ws32 : Option Bool) (w : Nat) : List Directive :=
  rsrc1D3 env ws32 w ++
  (if ¬env.isGFX12Plus then
     [((".amdhsa_dx10_clamp" : String),
       getField w COMPUTE_PGM_RSRC1_GFX6_GFX11_ENABLE_DX10_CLAMP 21)]
   else [])

/-- ... up to `.amdhsa_ieee_mode`. -/
def rsrc1D5 (env : Env) (ws32 : Option Bool) (w : Nat) : List Directive :=
  rsrc1D4 env ws32 w ++
  (if ¬env.isGFX12Plus then
     [((".amdhsa_ieee_mode" : String),
       getField w COMPUTE_PGM_RSRC1_GFX6_GFX11_ENABLE_IEEE_MODE 23)]
   else [])

/-- ... up to `.amdhsa_fp16_overflow`. -/
def rsrc1D6 (env : Env) (ws32 : Option Bool) (w : Nat) : List Directive :=
  rsrc1D5 env ws32 w ++
  (if env.isGFX9Plus then
     [((".amdhsa_fp16_overflow" : String),
       getField w COMPUTE_PGM_RSRC1_GFX9_PLUS_FP16_OVFL 26)]
   else [])

/-- The full success output of `decodeCOMPUTE_PGM_RSRC1`. -/
def rsrc1D8 (env : Env) (ws32 : Option Bool) (w : Nat) : List Directive :=
  rsrc1D6 env ws32 w ++
  (if env.isGFX10Plus then
     [((".amdhsa_workgroup_processor_mode" : String),
       getField w COMPUTE_PGM_RSRC1_GFX10_PLUS_WGP_MODE 29),
      (".amdhsa_memory_ordered",
       getField w COMPUTE_PGM_RSRC1_GFX10_PLUS_MEM_ORDERED 30),
      (".amdhsa_forward_progress",
       getField w COMPUTE_PGM_RSRC1_GFX10_PLUS_FWD_PROGRESS 31)]
   else []) ++
  (if env.isGFX12Plus then
     [((".amdhsa_round_robin_scheduling" : String),
       getField w COMPUTE_PGM_RSRC1_GFX12_PLUS_ENABLE_WG_RR_EN 21)]
   else [])

/-- `decodeCOMPUTE_PGM_RSRC1`: emit the derived register-count directives
and the mode directives, failing on any must-be-zero field that is set.
`ws32` is the wavefront-size-32 flag pre-read from the same record. -/
def decodeCOMPUTE_PGM_RSRC1 (env : Env) (ws32 : Option Bool) (w : Nat) :
    DecodeStatus × List Directive :=
  if env.isGFX10Plus ∧
      getField w COMPUTE_PGM_RSRC1_GRANULATED_WAVEFRONT_SGPR_COUNT 6 ≠ 0 then
    (.Fail, rsrc1D1 env ws32 w)
  else if w &&& COMPUTE_PGM_RSRC1_PRIORITY ≠ 0 then (.Fail, rsrc1D2 env ws32 w)
  else if w &&& COMPUTE_PGM_RSRC1_PRIV ≠ 0 then (.Fail, rsrc1D3 env ws32 w)
  else if w &&& COMPUTE_PGM_RSRC1_DEBUG_MODE ≠ 0 then
    (.Fail, rsrc1D4 env ws32 w)
  else if w &&& COMPUTE_PGM_RSRC1_BULKY ≠ 0 then (.Fail, rsrc1D5 env ws32 w)
  else if w &&& COMPUTE_PGM_RSRC1_CDBG_USER ≠ 0 then
    (.Fail, rsrc1D5 env ws32 w)
  else if ¬env.isGFX9Plus ∧ w &&& COMPUTE_PGM_RSRC1_GFX6_GFX8_RESERVED0 ≠ 0
    then (.Fail, rsrc1D6 env ws32 w)
  else if w &&& COMPUTE_PGM_RSRC1_RESERVED1 ≠ 0 then
    (.Fail, rsrc1D6 env ws32 w)
  else if ¬env.isGFX10Plus ∧ w &&& COMPUTE_PGM_RSRC1_GFX6_GFX9_RESERVED2 ≠ 0
    then (.Fail, rsrc1D6 env ws32 w)
  else (.Success, rsrc1D8 env ws32 w)

/-- The system-SGPR directives of `decodeCOMPUTE_PGM_RSRC2`. -/
def rsrc2D1 (env : Env) (w : Nat) : List Directive :=
  [((if env.hasArchitectedFlatScratch then ".amdhsa_enable_private_segment"
     else ".amdhsa_system_sgpr_private_segment_wavefront_offset" : String),
    getField w COMPUTE_PGM_RSRC2_ENABLE_PRIVATE_SEGMENT 0),
   (".amdhsa_system_sgpr_workgroup_id_x",
    getField w COMPUTE_PGM_RSRC2_ENABLE_SGPR_WORKGROUP_ID_X 7),
   (".amdhsa_system_sgpr_workgroup_id_y",
    getField w COMPUTE_PGM_RSRC2_ENABLE_SGPR_WORKGROUP_ID_Y 8),
   (".amdhsa_system_sgpr_workgroup_id_z",
    getField w COMPUTE_PGM_RSRC2_ENABLE_SGPR_WORKGROUP_ID_Z 9),
   (".amdhsa_system_sgpr_workgroup_info",
    getField w COMPUTE_PGM_RSRC2_ENABLE_SGPR_WORKGROUP_INFO 10),
   (".amdhsa_system_vgpr_workitem_id",
    getField w COMPUTE_PGM_RSRC2_ENABLE_VGPR_WORKITEM_ID 11)]

/-- The full success output of `decodeCOMPUTE_PGM_RSRC2`. -/
def rsrc2D2 (env : Env) (w : Nat) : List Directive :=
  rsrc2D1 env w ++
  [(".amdhsa_exception_fp_ieee_invalid_op",
    getField w COMPUTE_PGM_RSRC2_ENABLE_EXCEPTION_IEEE_754_FP_INVALID_OPERATION 24),
   (".amdhsa_exception_fp_denorm_src",
    getField w COMPUTE_PGM_RSRC2_ENABLE_EXCEPTION_FP_DENORMAL_SOURCE 25),
   (".amdhsa_exception_fp_ieee_div_zero",
    getField w COMPUTE_PGM_RSRC2_ENABLE_EXCEPTION_IEEE_754_FP_DIVISION_BY_ZERO 26),
   (".amdhsa_exception_fp_ieee_overflow",
    getField w COMPUTE_PGM_RSRC2_ENABLE_EXCEPTION_IEEE_754_FP_OVERFLOW 27),
   (".amdhsa_exception_fp_ieee_underflow",
    getField w COMPUTE_PGM_RSRC2_ENABLE_EXCEPTION_IEEE_754_FP_UNDERFLOW 28),
   (".amdhsa_exception_fp_ieee_inexact",
    getField w COMPUTE_PGM_RSRC2_ENABLE_EXCEPTION_IEEE_754_FP_INEXACT 29),
   (".amdhsa_exception_int_div_zero",
    getField w COMPUTE_PGM_RSRC2_ENABLE_EXCEPTION_INT_DIVIDE_BY_ZERO 30)]

/-- `decodeCOMPUTE_PGM_RSRC2`. -/
def decodeCOMPUTE_PGM_RSRC2 (env : Env) (w : Nat) :
    DecodeStatus × List Directive :=
  if w &&& COMPUTE_PGM_RSRC2_ENABLE_EXCEPTION_ADDRESS_WATCH ≠ 0 then
    (.Fail, rsrc2D1 env w)
  else if w &&& COMPUTE_PGM_RSRC2_ENABLE_EXCEPTION_MEMORY ≠ 0 then
    (.Fail, rsrc2D1 env w)
  else if w &&& COMPUTE_PGM_RSRC2_GRANULATED_LDS_SIZE ≠ 0 then
    (.Fail, rsrc2D1 env w)
  else if w &&& COMPUTE_PGM_RSRC2_RESERVED0 ≠ 0 then (.Fail, rsrc2D2 env w)
  else (.Success, rsrc2D2 env w)

/-- The GFX90A directives of `decodeCOMPUTE_PGM_RSRC3`. -/
def rsrc3D90a1 (w : Nat) : List Directive :=
  [(".amdhsa_accum_offset",
    (getField w COMPUTE_PGM_RSRC3_GFX90A_ACCUM_OFFSET 0 + 1) * 4)]

def rsrc3D90a2 (w : Nat) : List Directive :=
  rsrc3D90a1 w ++
  [(".amdhsa_tg_split", getField w COMPUTE_PGM_RSRC3_GFX90A_TG_SPLIT 16)]

/-- Bits [0-3] output of the GFX10+ branch of `decodeCOMPUTE_PGM_RSRC3`
(the shared-VGPR count line, or nothing on GFX12+). -/
def rsrc3DBase (env : Env) (ws32 : Option Bool) (w : Nat) : List Directive :=
  if ¬env.isGFX12Plus then
    if ¬(ws32.getD false) then
      [(".amdhsa_shared_vgpr_count",
        getField w COMPUTE_PGM_RSRC3_GFX10_GFX11_SHARED_VGPR_COUNT 0)]
    else
      [("; SHARED_VGPR_COUNT",
        getField w COMPUTE_PGM_RSRC3_GFX10_GFX11_SHARED_VGPR_COUNT 0)]
  else []

/-- ... after the bits [4-11] pseudo-directive comments. -/
def rsrc3DPref (env : Env) (ws32 : Option Bool) (w : Nat) : List Directive :=
  rsrc3DBase env ws32 w ++
  (if env.isGFX11 then
     [(("; INST_PREF_SIZE" : String),
       getField w COMPUTE_PGM_RSRC3_GFX11_INST_PREF_SIZE 4),
      ("; TRAP_ON_START", getField w COMPUTE_PGM_RSRC3_GFX11_TRAP_ON_START 10),
      ("; TRAP_ON_END", getField w COMPUTE_PGM_RSRC3_GFX11_TRAP_ON_END 11)]
   else if env.isGFX12Plus then
     [(("; INST_PREF_SIZE" : String),
       getField w COMPUTE_PGM_RSRC3_GFX12_PLUS_INST_PREF_SIZE 4)]
   else [])

/-- ... after the bit [13] pseudo-directive comment. -/
def rsrc3DGlg (env : Env) (ws32 : Option Bool) (w : Nat) : List Directive :=
  rsrc3DPref env ws32 w ++
  (if env.isGFX12Plus then
     [(("; GLG_EN" : String), getField w COMPUTE_PGM_RSRC3_GFX12_PLUS_GLG_EN 13)]
   else [])

/-- The full success output of the GFX10+ branch. -/
def rsrc3DFull (env : Env) (ws32 : Option Bool) (w : Nat) : List Directive :=
  rsrc3DGlg env ws32 w ++
  (if env.isGFX11Plus then
     [(("; IMAGE_OP" : String),
       getField w COMPUTE_PGM_RSRC3_GFX11_PLUS_IMAGE_OP 31)]
   else [])

/-- `decodeCOMPUTE_PGM_RSRC3`: version-dispatched; everything unknown to
the active version must be zero. -/
def decodeCOMPUTE_PGM_RSRC3 (env : Env) (ws32 : Option Bool) (w : Nat) :
    DecodeStatus × List Directive :=
  if env.isGFX90A then
    if w &&& COMPUTE_PGM_RSRC3_GFX90A_RESERVED0 ≠ 0 then (.Fail, rsrc3D90a1 w)
    else if w &&& COMPUTE_PGM_RSRC3_GFX90A_RESERVED1 ≠ 0 then
      (.Fail, rsrc3D90a2 w)
    else (.Success, rsrc3D90a2 w)
  else if env.isGFX10Plus then
    -- Bits [0-3].
    if env.isGFX12Plus ∧ w &&& COMPUTE_PGM_RSRC3_GFX12_PLUS_RESERVED0 ≠ 0 then
      (.Fail, [])
    -- Bits [4-11].
    else if ¬env.isGFX11 ∧ ¬env.isGFX12Plus ∧
        w &&& COMPUTE_PGM_RSRC3_GFX10_RESERVED1 ≠ 0 then
      (.Fail, rsrc3DBase env ws32 w)
    -- Bits [12].
    else if w &&& COMPUTE_PGM_RSRC3_GFX10_PLUS_RESERVED2 ≠ 0 then
      (.Fail, rsrc3DPref env ws32 w)
    -- Bits [13].
    else if ¬env.isGFX12Plus ∧
        w &&& COMPUTE_PGM_RSRC3_GFX10_GFX11_RESERVED3 ≠ 0 then
      (.Fail, rsrc3DPref env ws32 w)
    -- Bits [14-30].
    else if w &&& COMPUTE_PGM_RSRC3_GFX10_PLUS_RESERVED4 ≠ 0 then
      (.Fail, rsrc3DGlg env ws32 w)
    -- Bits [31].
    else if ¬env.isGFX11Plus ∧ w &&& COMPUTE_PGM_RSRC3_GFX10_RESERVED5 ≠ 0 then
      (.Fail, rsrc3DGlg env ws32 w)
    else (.Success, rsrc3DFull env ws32 w)
  else if w ≠ 0 then (.Fail, [])
  else (.Success, [])

/-- The user-SGPR directives of the `KERNEL_CODE_PROPERTIES` stage. -/
def kcpD1 (env : Env) (w : Nat) : List Directive :=
  (if ¬env.hasArchitectedFlatScratch then
     [((".amdhsa_user_sgpr_private_segment_buffer" : String),
       getField w KERNEL_CODE_PROPERTY_ENABLE_SGPR_PRIVATE_SEGMENT_BUFFER 0)]
   else []) ++
  [(".amdhsa_user_sgpr_dispatch_ptr",
    getField w KERNEL_CODE_PROPERTY_ENABLE_SGPR_DISPATCH_PTR 1),
   (".amdhsa_user_sgpr_queue_ptr",
    getField w KERNEL_CODE_PROPERTY_ENABLE_SGPR_QUEUE_PTR 2),
   (".amdhsa_user_sgpr_kernarg_segment_ptr",
    getField w KERNEL_CODE_PROPERTY_ENABLE_SGPR_KERNARG_SEGMENT_PTR 3),
   (".amdhsa_user_sgpr_dispatch_id",
    getField w KERNEL_CODE_PROPERTY_ENABLE_SGPR_DISPATCH_ID 4)] ++
  (if ¬env.hasArchitectedFlatScratch then
     [((".amdhsa_user_sgpr_flat_scratch_init" : String),
       getField w KERNEL_CODE_PROPERTY_ENABLE_SGPR_FLAT_SCRATCH_INIT 5)]
   else []) ++
  [(".amdhsa_user_sgpr_private_segment_size",
    getField w KERNEL_CODE_PROPERTY_ENABLE_SGPR_PRIVATE_SEGMENT_SIZE 6)]

/-- The full success output of the `KERNEL_CODE_PROPERTIES` stage. -/
def kcpD3 (env : Env) (w : Nat) : List Directive :=
  kcpD1 env w ++
  (if env.isGFX10Plus then
     [((".amdhsa_wavefront_size32" : String),
       getField w KERNEL_CODE_PROPERTY_ENABLE_WAVEFRONT_SIZE32 10)]
   else []) ++
  (if env.codeObjectVersionAtLeast5 then
     [((".amdhsa_uses_dynamic_stack" : String),
       getField w KERNEL_CODE_PROPERTY_USES_DYNAMIC_STACK 11)]
   else [])

/-- The `KERNEL_CODE_PROPERTIES` two-byte field. -/
def decodeKernelCodeProperties (env : Env) (w : Nat) :
    DecodeStatus × List Directive :=
  if w &&& KERNEL_CODE_PROPERTY_RESERVED0 ≠ 0 then (.Fail, kcpD1 env w)
  -- Reserved for GFX9.
  else if env.isGFX9 ∧ w &&& KERNEL_CODE_PROPERTY_ENABLE_WAVEFRONT_SIZE32 ≠ 0
    then (.Fail, kcpD1 env w)
  else if w &&& KERNEL_CODE_PROPERTY_RESERVED1 ≠ 0 then (.Fail, kcpD3 env w)
  else (.Success, kcpD3 env w)

/-- The `KERNARG_PRELOAD` two-byte field (never fails). -/
def decodeKernargPreload (w : Nat) : DecodeStatus × List Directive :=
  (.Success,
   (if w &&& KERNARG_PRELOAD_SPEC_LENGTH ≠ 0 then
      [((".amdhsa_user_sgpr_kernarg_preload_length" : String),
        getField w KERNARG_PRELOAD_SPEC_LENGTH 0)]
    else []) ++
   (if w &&& KERNARG_PRELOAD_SPEC_OFFSET ≠ 0 then
      [((".amdhsa_user_sgpr_kernarg_preload_offset" : String),
        getField w KERNARG_PRELOAD_SPEC_OFFSET 7)]
    else []))

/-- `decodeKernelDescriptorDirective`: read and translate one offset range,
returning the status, the emitted lines and the advanced cursor.  Cursor
values outside the recognized set are unreachable from offset 0
(`llvm_unreachable` in the source, modelled as `Fail`). -/
def decodeKernelDescriptorDirective (env : Env) (ws32 : Option Bool)
    (d : List Nat) (c : Nat) : DecodeStatus × List Directive × Nat :=
  if c = GROUP_SEGMENT_FIXED_SIZE_OFFSET then
    (.Success, [(".amdhsa_group_segment_fixed_size", wordAt d c 4)], c + 4)
  else if c = PRIVATE_SEGMENT_FIXED_SIZE_OFFSET then
    (.Success, [(".amdhsa_private_segment_fixed_size", wordAt d c 4)], c + 4)
  else if c = KERNARG_SIZE_OFFSET then
    (.Success, [(".amdhsa_kernarg_size", wordAt d c 4)], c + 4)
  else if c = RESERVED0_OFFSET then
    -- 4 reserved bytes, must be 0.
    (if (List.range 4).all (fun i => d.getD (c + i) 0 = 0) then .Success
     else .Fail, [], c + 4)
  else if c = KERNEL_CODE_ENTRY_BYTE_OFFSET_OFFSET then
    (.Success, [], c + 8)
  else if c = RESERVED1_OFFSET then
    -- 20 reserved bytes, must be 0.
    (if (List.range 20).all (fun i => d.getD (c + i) 0 = 0) then .Success
     else .Fail, [], c + 20)
  else if c = COMPUTE_PGM_RSRC3_OFFSET then
    let r := decodeCOMPUTE_PGM_RSRC3 env ws32 (wordAt d c 4)
    (r.1, r.2, c + 4)
  else if c = COMPUTE_PGM_RSRC1_OFFSET then
    let r := decodeCOMPUTE_PGM_RSRC1 env ws32 (wordAt d c 4)
    (r.1, r.2, c + 4)
  else if c = COMPUTE_PGM_RSRC2_OFFSET then
    let r := decodeCOMPUTE_PGM_RSRC2 env (wordAt d c 4)
    (r.1, r.2, c + 4)
  else if c = KERNEL_CODE_PROPERTIES_OFFSET then
    let r := decodeKernelCodeProperties env (wordAt d c 2)
    (r.1, r.2, c + 2)
  else if c = KERNARG_PRELOAD_OFFSET then
    let r := decodeKernargPreload (wordAt d c 2)
    (r.1, r.2, c + 2)
  else if c = RESERVED3_OFFSET then
    -- 4 bytes from here are reserved, must be 0.
    (if (List.range 4).all (fun i => d.getD (c + i) 0 = 0) then .Success
     else .Fail, [], c + 4)
  else
    (.Fail, [], c + 1)

/-- The cursor offsets the `decodeKernelDescriptor` loop visits, in
ascending order; each directive's returned cursor is the next entry
(established by `kd_cursor_chain`). -/
def kdOffsets : List Nat :=
  [0, 4, 8, 12, 16, 24, 44, 48, 52, 56, 58, 60]

/-- The cursor loop of `decodeKernelDescriptor`: run the directives in
ascending offset order until 64 bytes are consumed or one fails. -/
def kdLoop (env : Env) (ws32 : Option Bool) (d : List Nat) :
    List Nat → DecodeStatus × List Directive
  | [] => (.Success, [])
  | c :: rest =>
    let r := decodeKernelDescriptorDirective env ws32 d c
    if r.1 = .Fail then (.Fail, r.2.1)
    else
      let out := kdLoop env ws32 d rest
      (out.1, r.2.1 ++ out.2)

/-- `decodeKernelDescriptor`: reject records that are not exactly 64 bytes
or whose load address is not 64-byte aligned, pre-read the
wavefront-size-32 flag on GFX10+, then run the ascending offset pass. -/
def decodeKernelDescriptor (env : Env) (d : List Nat) (kdAddress : Nat) :
    DecodeStatus × List Directive :=
  -- CP microcode requires the kernel descriptor to be 64 aligned.
  if d.length ≠ 64 ∨ kdAddress % 64 ≠ 0 then (.Fail, []) else
  let ws32 : Option Bool :=
    if env.isGFX10Plus then
      some (getField (wordAt d KERNEL_CODE_PROPERTIES_OFFSET 2)
              KERNEL_CODE_PROPERTY_ENABLE_WAVEFRONT_SIZE32 10 ≠ 0)
    else none
  kdLoop env ws32 d kdOffsets

/-- The while loop of the source advances the cursor by what each
directive read; starting from offset 0 this visits exactly `kdOffsets`
and stops at 64: each directive's returned cursor is the successor
offset. -/
theorem kd_cursor_chain (env : Env) (ws32 : Option Bool) (d : List Nat) :
    kdOffsets.map
      (fun c => (decodeKernelDescriptorDirective env ws32 d c).2.2) =
      kdOffsets.tail ++ [64] := rfl

/-! ## Instruction metadata oracles used by the driver and the normalizer -/

/-- `SISrcMods` modifier bits (external constant table). -/
def SISrcMods_NEG : Nat := 1
def SISrcMods_NEG_HI : Nat := 2
def SISrcMods_OP_SEL_0 : Nat := 4
def SISrcMods_OP_SEL_1 : Nat := 8
def SISrcMods_DST_OP_SEL : Nat := 8

/-- `CPol::GLC`. -/
def CPol_GLC : Nat := 1

def MCInst.setOpcode (mi : MCInst) (opc : Nat) : MCInst :=
  { mi with opcode := opc }

/-- `llvm::popcount` restricted to the four dmask bits. -/
def popcount4 (n : Nat) : Nat :=
  (n &&& 1) + (n >>> 1 &&& 1) + (n >>> 2 &&& 1) + (n >>> 3 &&& 1)

def TryHit.litState (h : TryHit) : LitState :=
  { hasLiteral := h.hasLiteral, literal := h.literal, literal64 := h.literal64 }

/-! ## The normalizer passes (component 5) -/

/-- `insertNamedMCOperand`: insert at the schema position of the named
operand; a missing name leaves the instruction unchanged. -/
def insertNamedMCOperand (env : Env) (mi : MCInst) (op : MCOperand)
    (name : OpName) : MCInst :=
  let opIdx := env.getNamedOperandIdx mi.opcode name
  if opIdx ≠ -1 then mi.insertAt opIdx.toNat op else mi

/-- `VOPModifiers`: op_sel / op_sel_hi / neg_lo / neg_hi reconstructed
from the per-source modifier operands. -/
structure VOPModifiers where
  opSel : Nat := 0
  opSelHi : Nat := 0
  negLo : Nat := 0
  negHi : Nat := 0
  deriving Repr

/-- One step of `collectVOPModifiers` for source slot `j`. -/
def collectVOPModifiersStep (env : Env) (mi : MCInst) (isVOP3P : Bool)
    (j : Nat) (name : OpName) (m : VOPModifiers) : VOPModifiers :=
  let opIdx := env.getNamedOperandIdx mi.opcode name
  if opIdx = -1 then m
  else
    let v := (mi.getOperand opIdx).getImm.toNat
    let m := { m with opSel := m.opSel |||
                 (if v &&& SISrcMods_OP_SEL_0 ≠ 0 then 1 else 0) <<< j }
    if isVOP3P then
      { m with
        opSelHi := m.opSelHi ||| (if v &&& SISrcMods_OP_SEL_1 ≠ 0 then 1 else 0) <<< j,
        negLo := m.negLo ||| (if v &&& SISrcMods_NEG ≠ 0 then 1 else 0) <<< j,
        negHi := m.negHi ||| (if v &&& SISrcMods_NEG_HI ≠ 0 then 1 else 0) <<< j }
    else if j = 0 then
      { m with opSel := m.opSel |||
          (if v &&& SISrcMods_DST_OP_SEL ≠ 0 then 1 else 0) <<< 3 }
    else m

/-- `collectVOPModifiers`. -/
def collectVOPModifiers (env : Env) (mi : MCInst) (isVOP3P : Bool) :
    VOPModifiers :=
  collectVOPModifiersStep env mi isVOP3P 2 .src2_modifiers
    (collectVOPModifiersStep env mi isVOP3P 1 .src1_modifiers
      (collectVOPModifiersStep env mi isVOP3P 0 .src0_modifiers {}))

/-- `isMacDPP`: MAC opcodes have an `old` operand that is not tied. -/
def isMacDPP (env : Env) (mi : MCInst) : Bool :=
  let oldIdx := env.getNamedOperandIdx mi.opcode .old
  oldIdx ≠ -1 ∧ env.getOperandConstraintTiedTo mi.opcode oldIdx.toNat = -1

/-- `convertMacDPPInst`: create a dummy `old` operand and dummy unused
`src2_modifiers`. -/
def convertMacDPPInst (env : Env) (mi : MCInst) : MCInst :=
  insertNamedMCOperand env (insertNamedMCOperand env mi (.reg 0) .old)
    (.imm 0) .src2_modifiers

/-- `isValidDPP8`: the redundant FI field must carry one of the two
confirmation literals, otherwise the structurally matched DPP8 entry is
not a genuine DPP8 instruction. -/
def isValidDPP8 (env : Env) (mi : MCInst) : Bool :=
  let fiIdx := env.getNamedOperandIdx mi.opcode .fi
  if 0 ≤ fiIdx ∧ fiIdx.toNat < mi.getNumOperands then
    let fi := (mi.getOperand fiIdx).getImm
    fi = (DPP8_FI_0 : Int) ∨ fi = (DPP8_FI_1 : Int)
  else false

/-- `convertVOP3PDPPInst`: fill the absent modifier schema slots from the
already-decoded `src_modifiers`. -/
def convertVOP3PDPPInst (env : Env) (mi : MCInst) : MCInst :=
  let opc := mi.opcode
  let descNumOps := env.getNumOperandsDesc opc
  let mods := collectVOPModifiers env mi true
  let mi := if mi.getNumOperands < descNumOps ∧ env.hasNamedOperand opc .vdst_in
    then insertNamedMCOperand env mi (.imm 0) .vdst_in else mi
  let mi := if mi.getNumOperands < descNumOps ∧ env.hasNamedOperand opc .op_sel
    then insertNamedMCOperand env mi (.imm mods.opSel) .op_sel else mi
  let mi := if mi.getNumOperands < descNumOps ∧
      env.hasNamedOperand opc .op_sel_hi
    then insertNamedMCOperand env mi (.imm mods.opSelHi) .op_sel_hi else mi
  let mi := if mi.getNumOperands < descNumOps ∧ env.hasNamedOperand opc .neg_lo
    then insertNamedMCOperand env mi (.imm mods.negLo) .neg_lo else mi
  let mi := if mi.getNumOperands < descNumOps ∧ env.hasNamedOperand opc .neg_hi
    then insertNamedMCOperand env mi (.imm mods.negHi) .neg_hi else mi
  mi

/-- `convertVOPCDPPInst`: create the dummy `old` operand and the optional
modifier slots. -/
def convertVOPCDPPInst (env : Env) (mi : MCInst) : MCInst :=
  let opc := mi.opcode
  let descNumOps := env.getNumOperandsDesc opc
  let mi := if mi.getNumOperands < descNumOps ∧ env.hasNamedOperand opc .old
    then insertNamedMCOperand env mi (.reg 0) .old else mi
  let mi := if mi.getNumOperands < descNumOps ∧
      env.hasNamedOperand opc .src0_modifiers
    then insertNamedMCOperand env mi (.imm 0) .src0_modifiers else mi
  let mi := if mi.getNumOperands < descNumOps ∧
      env.hasNamedOperand opc .src1_modifiers
    then insertNamedMCOperand env mi (.imm 0) .src1_modifiers else mi
  mi

/-- `convertVOP3DPPInst`. -/
def convertVOP3DPPInst (env : Env) (mi : MCInst) : MCInst :=
  let mi := if isMacDPP env mi then convertMacDPPInst env mi else mi
  let opc := mi.opcode
  let descNumOps := env.getNumOperandsDesc opc
  if mi.getNumOperands < descNumOps ∧ env.hasNamedOperand opc .op_sel then
    insertNamedMCOperand env mi
      (.imm (collectVOPModifiers env mi false).opSel) .op_sel
  else mi

/-- `convertDPP8Inst`: add the optional operands first (they are needed to
locate FI), then check `FI ∈ {DPP8_FI_0, DPP8_FI_1}`; a failed check is a
`SoftFail`, not a `Fail`. -/
def convertDPP8Inst (env : Env) (mi : MCInst) : MCInst × DecodeStatus :=
  let opc := mi.opcode
  let mi :=
    if env.tsfVOP3P opc then convertVOP3PDPPInst env mi
    else if env.tsfVOPC opc ∨ env.isVOPC64DPP opc then convertVOPCDPPInst env mi
    else
      let mi := if isMacDPP env mi then convertMacDPPInst env mi else mi
      let descNumOps := env.getNumOperandsDesc opc
      if mi.getNumOperands < descNumOps ∧ env.hasNamedOperand opc .op_sel then
        insertNamedMCOperand env mi
          (.imm (collectVOPModifiers env mi false).opSel) .op_sel
      else
        -- Insert dummy unused src modifiers.
        let mi := if mi.getNumOperands < descNumOps ∧
            env.hasNamedOperand opc .src0_modifiers
          then insertNamedMCOperand env mi (.imm 0) .src0_modifiers else mi
        if mi.getNumOperands < descNumOps ∧
            env.hasNamedOperand opc .src1_modifiers
          then insertNamedMCOperand env mi (.imm 0) .src1_modifiers else mi
  (mi, if isValidDPP8 env mi then .Success else .SoftFail)

/-- `convertEXPInst`. -/
def convertEXPInst (env : Env) (mi : MCInst) : DecodeStatus × MCInst :=
  if env.hasGFX11Insts then
    (.Success, insertNamedMCOperand env
       (insertNamedMCOperand env mi (.imm 0) .vm) (.imm 0) .compr)
  else (.Success, mi)

/-- `convertVINTERPInst`: the eight `v_interp_*_inreg` opcodes carry an
`op_sel` schema slot that is not encoded. -/
def convertVINTERPInst (env : Env) (mi : MCInst) : DecodeStatus × MCInst :=
  if env.isInterpInregOpcode mi.opcode then
    (.Success, insertNamedMCOperand env mi (.imm 0) .op_sel)
  else (.Success, mi)

/-- `convertSDWAInst`. -/
def convertSDWAInst (env : Env) (mi : MCInst) : DecodeStatus × MCInst :=
  if env.isGFX9 ∨ env.isGFX10 then
    if env.hasNamedOperand mi.opcode .sdst then
      (.Success, insertNamedMCOperand env mi (.imm 0) .clamp)
    else (.Success, mi)
  else if env.isVI then
    if env.getNamedOperandIdx mi.opcode .sdst ≠ -1 then
      (.Success, insertNamedMCOperand env mi (createNamedRegOperand env VCC) .sdst)
    else
      (.Success, insertNamedMCOperand env mi (.imm 0) .omod)
  else (.Success, mi)

/-- `convertFMAanyK`: splice the pending literal into the deferred
immediate schema slots. -/
def convertFMAanyK (env : Env) (mi : MCInst) (lit : LitState) :
    DecodeStatus × MCInst :=
  let descNumOps := env.getNumOperandsDesc mi.opcode
  let mi := insertNamedMCOperand env mi (.imm lit.literal) .immDeferred
  let ops := (List.range mi.getNumOperands).map (fun (i : Nat) =>
    let op := mi.getOperand (i : Int)
    if i < descNumOps ∧ op.isImm ∧ op.getImm = (LITERAL_CONST : Int) ∧
        env.operandTypeIsDeferredFP mi.opcode i
    then .imm lit.literal else op)
  (.Success, { mi with operands := ops })

/-- The GFX10+ address-size analysis of `convertMIMGInst`: the tuple
(AddrSize, IsNSA, IsPartialNSA, early-return because the NSA encoding
cannot hold the operand combination). -/
def mimgGfx10 (env : Env) (mi : MCInst) : Nat × Bool × Bool × Bool :=
  let opc := mi.opcode
  let info := env.mimgInfo opc
  let isVSample := env.tsfVSAMPLE opc
  if env.isGFX10Plus then
    let dimIdx := env.getNamedOperandIdx opc .dim
    let a16Idx := env.getNamedOperandIdx opc .a16
    let isA16 := a16Idx ≠ -1 ∧ (mi.getOperand a16Idx).getImm ≠ 0
    let addrSize := env.addrSizeMIMGOp info.baseOpcode
      (mi.getOperand dimIdx).getImm isA16 env.hasG16
    let isNSA := info.mimgEncoding = .gfx10NSA ∨
      info.mimgEncoding = .gfx11NSA ∨ info.mimgEncoding = .gfx12
    if ¬isNSA then
      (if ¬isVSample ∧ 12 < addrSize then 16 else addrSize, isNSA, false, false)
    else if info.vaddrDwords < addrSize then
      if ¬env.hasPartialNSAEncoding then
        -- The NSA encoding does not contain enough operands for the
        -- combination of base opcode / dimension.
        (addrSize, isNSA, false, true)
      else (addrSize, isNSA, true, false)
    else (addrSize, isNSA, false, false)
  else (info.vaddrDwords, false, false, false)

/-- The data-size computation of `convertMIMGInst`: enabled dmask
channels (or 4 for gather4), halved for packed D16, plus one for TFE. -/
def mimgDstSize (env : Env) (mi : MCInst) : Nat :=
  let opc := mi.opcode
  let dmaskIdx := env.getNamedOperandIdx opc .dmask
  let tfeIdx := env.getNamedOperandIdx opc .tfe
  let d16Idx := env.getNamedOperandIdx opc .d16
  let isGather4 := env.tsfGather4 opc
  let dmask := (mi.getOperand dmaskIdx).getImm.toNat &&& 0xF
  let dstSize0 := if isGather4 then 4 else max (popcount4 dmask) 1
  let d16 := 0 ≤ d16Idx ∧ (mi.getOperand d16Idx).getImm ≠ 0
  let dstSize1 := if d16 ∧ env.hasPackedD16 then (dstSize0 + 1) / 2 else dstSize0
  if tfeIdx ≠ -1 ∧ (mi.getOperand tfeIdx).getImm ≠ 0
    then dstSize1 + 1 else dstSize1

/-- `convertMIMGInst`: resolve the true (data size, address size) pair of
a variable-width addressing instruction and re-derive opcode and register
operands, leaving the instruction untouched when the table's assumption
already matches or when no variant exists. -/
def convertMIMGInst (env : Env) (mi : MCInst) : DecodeStatus × MCInst :=
  let opc := mi.opcode
  let vdstIdx := env.getNamedOperandIdx opc .vdst
  let vdataIdx := env.getNamedOperandIdx opc .vdata
  let vaddr0Idx := env.getNamedOperandIdx opc .vaddr0
  let rsrcName := if env.tsfMIMG opc then OpName.srsrc else OpName.rsrc
  let rsrcIdx := env.getNamedOperandIdx opc rsrcName
  let info := env.mimgInfo opc
  let baseOpcode := env.mimgBaseOpcodeInfo info.baseOpcode
  if baseOpcode.bvh then
    -- Add A16 operand for intersect_ray instructions.
    (.Success, mi.push (.imm (if baseOpcode.a16 then 1 else 0)))
  else
  let isAtomic := vdstIdx ≠ -1
  let gfx10 := mimgGfx10 env mi
  if gfx10.2.2.2 then (.Success, mi) else
  let addrSize := gfx10.1
  let isNSA := gfx10.2.1
  let isPartialNSA := gfx10.2.2.1
  let dstSize := mimgDstSize env mi
  if dstSize = info.vdataDwords ∧ addrSize = info.vaddrDwords then
    (.Success, mi)
  else
  match env.getMIMGOpcode info.baseOpcode info.mimgEncoding dstSize addrSize with
  | none => (.Success, mi)
  | some newOpcode =>
    -- Widen the register to the correct number of enabled channels.
    let newVdataRes : Option Nat :=
      if dstSize ≠ info.vdataDwords then
        let dataRCID := env.operandRegClass newOpcode vdataIdx.toNat
        let vdata0 := (mi.getOperand vdataIdx).getReg
        let vdataSub0 := env.getSubReg0 vdata0
        let vdata0 := if vdataSub0 ≠ 0 then vdataSub0 else vdata0
        let newVdata := env.getMatchingSuperReg vdata0 dataRCID
        if newVdata = NoRegister then none else some newVdata
      else some NoRegister
    match newVdataRes with
    | none =>
      -- It's possible to encode this such that the low register + enabled
      -- components exceeds the register count.
      (.Success, mi)
    | some newVdata =>
      -- If not using NSA on GFX10+, widen vaddr0; with partial NSA widen
      -- the last address register.
      let vaddrSAIdx := if isPartialNSA then rsrcIdx - 1 else vaddr0Idx
      let newVAddrRes : Option Nat :=
        if env.hasNSAEncoding ∧ (¬isNSA ∨ isPartialNSA) ∧
            addrSize ≠ info.vaddrDwords then
          let vaddrSA := (mi.getOperand vaddrSAIdx).getReg
          let vaddrSubSA := env.getSubReg0 vaddrSA
          let vaddrSA := if vaddrSubSA ≠ 0 then vaddrSubSA else vaddrSA
          let addrRCID := env.operandRegClass newOpcode vaddrSAIdx.toNat
          let newVAddrSA := env.getMatchingSuperReg vaddrSA addrRCID
          if newVAddrSA = NoRegister then none else some newVAddrSA
        else some NoRegister
      match newVAddrRes with
      | none => (.Success, mi)
      | some newVAddrSA =>
        let mi := mi.setOpcode newOpcode
        let mi :=
          if newVdata ≠ NoRegister then
            let mi := mi.setOperand vdataIdx.toNat (.reg newVdata)
            if isAtomic then
              -- Atomic operations have an additional operand (a copy of
              -- the data).
              mi.setOperand vdstIdx.toNat (.reg newVdata)
            else mi
          else mi
        let mi :=
          if newVAddrSA ≠ NoRegister then
            mi.setOperand vaddrSAIdx.toNat (.reg newVAddrSA)
          else if isNSA then
            { mi with operands :=
                mi.operands.take (vaddr0Idx.toNat + addrSize) ++
                mi.operands.drop (vaddr0Idx.toNat + info.vaddrDwords) }
          else mi
        (.Success, mi)

/-! ## Top-level decode driver (component 6): the cascade -/

/-- The result of the byte-length-hypothesis cascade: status, instruction,
bytes committed from the window (main word plus any trailing literal),
the pending-literal state of the winning attempt, and whether an SDWA
table won. -/
structure CascadeOut where
  res : DecodeStatus := .Fail
  mi : MCInst := {}
  consumed : Nat := 0
  lit : LitState := {}
  isSDWA : Bool := false

/-- `tryDecodeInst` over a pair of tables: the second is consulted only
when the first fails. -/
def tryDecode2 (env : Env) (t1 t2 : TableId) (w : Nat) : Option TryHit :=
  match env.tryDecode t1 w with
  | some h => some h
  | none => env.tryDecode t2 w

/-- A plain cascade attempt: `Res = tryDecodeInst(...); if (Res) break;`. -/
def plainAttempt (hit : Option TryHit) (wordLen : Nat) (next : CascadeOut) :
    CascadeOut :=
  match hit with
  | some h =>
    { res := .Success, mi := h.mi, consumed := wordLen + h.litBytes,
      lit := h.litState, isSDWA := false }
  | none => next

/-- A DPP8 cascade attempt: on a structural match run `convertDPP8Inst`;
only `Success` (FI confirmed) commits, a `SoftFail` discards the partial
instruction (`MI = MCInst()`) and the cascade continues with `next`. -/
def dpp8Attempt (env : Env) (hit : Option TryHit) (wordLen : Nat)
    (next : CascadeOut) : CascadeOut :=
  match hit with
  | some h =>
    let conv := convertDPP8Inst env h.mi
    if conv.2 = .Success then
      { res := .Success, mi := conv.1, consumed := wordLen + h.litBytes,
        lit := h.litState, isSDWA := false }
    else next
  | none => next

/-- The `DecoderTableGFX10_B64` attempt: plain break unless the matched
opcode has a `dpp8` operand, in which case the DPP8 validity fixup
gates the break. -/
def gfx10B64Attempt (env : Env) (hit : Option TryHit) (next : CascadeOut) :
    CascadeOut :=
  match hit with
  | some h =>
    if env.getNamedOperandIdx h.mi.opcode .dpp8 = -1 then
      { res := .Success, mi := h.mi, consumed := 8 + h.litBytes,
        lit := h.litState, isSDWA := false }
    else
      let conv := convertDPP8Inst env h.mi
      if conv.2 = .Success then
        { res := .Success, mi := conv.1, consumed := 8 + h.litBytes,
          lit := h.litState, isSDWA := false }
      else next
  | none => next

/-- The 12-byte DPP16 attempts: on a match run the `convertVOPDPP` fixup
(VOP3P / VOPC64 / VOP3 dispatch) and break unconditionally. -/
def dppVOPAttempt (env : Env) (hit : Option TryHit) (next : CascadeOut) :
    CascadeOut :=
  match hit with
  | some h =>
    let mi :=
      if env.tsfVOP3P h.mi.opcode then convertVOP3PDPPInst env h.mi
      else if env.isVOPC64DPP h.mi.opcode then convertVOPCDPPInst env h.mi
      else convertVOP3DPPInst env h.mi
    { res := .Success, mi := mi, consumed := 12 + h.litBytes,
      lit := h.litState, isSDWA := false }
  | none => next

/-- The 8-byte DPP16 attempts: on a match convert VOPC forms and break. -/
def dppVOPCAttempt (env : Env) (hit : Option TryHit) (next : CascadeOut) :
    CascadeOut :=
  match hit with
  | some h =>
    let mi := if env.tsfVOPC h.mi.opcode then convertVOPCDPPInst env h.mi
              else h.mi
    { res := .Success, mi := mi, consumed := 8 + h.litBytes,
      lit := h.litState, isSDWA := false }
  | none => next

/-- An SDWA cascade attempt: break and remember that an SDWA table won. -/
def sdwaAttempt (hit : Option TryHit) (next : CascadeOut) : CascadeOut :=
  match hit with
  | some h =>
    { res := .Success, mi := h.mi, consumed := 8 + h.litBytes,
      lit := h.litState, isSDWA := true }
  | none => next

/-- The full cascade of `getInstruction` over byte-length hypotheses
(12-byte DPP/plain, 8-byte, 4-byte, extended 8-byte), in source order;
each attempt starts from the original window. -/
def runCascade (env : Env) (window : List Nat) : CascadeOut :=
  let failOut : CascadeOut := {}
  -- Try decode 32-bit instruction (and the 64-bit extension sharing DW).
  let c32 : CascadeOut :=
    if window.length < 4 then failOut else
    let dw := leWord window 4
    let cExt : CascadeOut :=
      if (window.drop 4).length < 4 then failOut else
      let qw := dw ||| leWord (window.drop 4) 4 <<< 32
      let n10 := plainAttempt (env.tryDecode .wmmaGFX11_64 qw) 8 failOut
      let n9 := plainAttempt (tryDecode2 env .gfx11_64 .gfx11_FAKE16_64 qw) 8 n10
      let n8 := plainAttempt (tryDecode2 env .gfx12_64 .gfx12_FAKE16_64 qw) 8 n9
      let n7 := plainAttempt (env.tryDecode .gfx10_64 qw) 8 n8
      let n6 := plainAttempt (env.tryDecode .gfx9_64 qw) 8 n7
      let n5 := plainAttempt (env.tryDecode .amdgpu_64 qw) 8 n6
      let n4 := plainAttempt (env.tryDecode .gfx8_64 qw) 8 n5
      let n3 := if env.isGFX90A then
          plainAttempt (env.tryDecode .gfx90A_64 qw) 8 n4 else n4
      if env.hasGFX940Insts then
        plainAttempt (env.tryDecode .gfx940_64 qw) 8 n3 else n3
    let m9 := plainAttempt (tryDecode2 env .gfx12_32 .gfx12_FAKE16_32 dw) 4 cExt
    let m8 := plainAttempt (tryDecode2 env .gfx11_32 .gfx11_FAKE16_32 dw) 4 m9
    let m7 := plainAttempt (env.tryDecode .gfx10_32 dw) 4 m8
    let m6 := if env.hasGFX10_BEncoding then
        plainAttempt (env.tryDecode .gfx10_B_32 dw) 4 m7 else m7
    let m5 := if env.isGFX90A then
        plainAttempt (env.tryDecode .gfx90A_32 dw) 4 m6 else m6
    let m4 := plainAttempt (env.tryDecode .gfx9_32 dw) 4 m5
    let m3 := plainAttempt (env.tryDecode .amdgpu_32 dw) 4 m4
    plainAttempt (env.tryDecode .gfx8_32 dw) 4 m3
  -- 8-byte hypothesis.
  let c8 : CascadeOut :=
    if window.length < 8 then c32 else
    let qw := leWord window 8
    let k12 := if env.hasFmaMixInsts then
        plainAttempt (env.tryDecode .gfx9_DL_64 qw) 8 c32 else c32
    let k11 := if env.hasUnpackedD16VMem then
        plainAttempt (env.tryDecode .gfx80_UNPACKED_64 qw) 8 k12 else k12
    let k10 := sdwaAttempt (env.tryDecode .sdwa10_64 qw) k11
    let k9 := sdwaAttempt (env.tryDecode .sdwa9_64 qw) k10
    let k8 := sdwaAttempt (env.tryDecode .sdwa_64 qw) k9
    let k7 := dppVOPCAttempt env
      (tryDecode2 env .dppGFX12_64 .dppGFX12_FAKE16_64 qw) k8
    let k6 := dppVOPCAttempt env
      (tryDecode2 env .dppGFX11_64 .dppGFX11_FAKE16_64 qw) k7
    let k5 := plainAttempt (env.tryDecode .dpp_64 qw) 8 k6
    let k4 := dpp8Attempt env
      (tryDecode2 env .dpp8GFX12_64 .dpp8GFX12_FAKE16_64 qw) 8 k5
    let k3 := dpp8Attempt env
      (tryDecode2 env .dpp8GFX11_64 .dpp8GFX11_FAKE16_64 qw) 8 k4
    let k2 := dpp8Attempt env (env.tryDecode .dpp8_64 qw) 8 k3
    if env.hasGFX10_BEncoding then
      gfx10B64Attempt env (env.tryDecode .gfx10_B_64 qw) k2
    else k2
  -- 12-byte hypothesis: DPP8 / DPP16 / plain, GFX11 then GFX12 families.
  if env.isGFX11Plus ∧ 12 ≤ window.length then
    let decW := leWord window 12
    let j6 := plainAttempt (env.tryDecode .gfx12_96 decW) 12 c8
    let j5 := plainAttempt (env.tryDecode .gfx11_96 decW) 12 j6
    let j4 := dppVOPAttempt env
      (tryDecode2 env .dppGFX12_96 .dppGFX12_FAKE16_96 decW) j5
    let j3 := dppVOPAttempt env
      (tryDecode2 env .dppGFX11_96 .dppGFX11_FAKE16_96 decW) j4
    let j2 := dpp8Attempt env
      (tryDecode2 env .dpp8GFX12_96 .dpp8GFX12_FAKE16_96 decW) 12 j3
    dpp8Attempt env
      (tryDecode2 env .dpp8GFX11_96 .dpp8GFX11_FAKE16_96 decW) 12 j2
  else c8

/-! ## Driver post-processing passes -/

/-- The cpol fixup for MUBUF / FLAT / SMRD instructions: insert the elided
cache-policy operand, or fold the atomic-return GLC bit into it. -/
def cpolStep (env : Env) (mi : MCInst) : MCInst :=
  let cpolPos := env.getNamedOperandIdx mi.opcode .cpol
  if cpolPos ≠ -1 then
    let cpolVal := if env.tsfIsAtomicRet mi.opcode then CPol_GLC else 0
    if mi.getNumOperands ≤ cpolPos.toNat then
      insertNamedMCOperand env mi (.imm cpolVal) .cpol
    else if cpolVal ≠ 0 then
      mi.setOperand cpolPos.toNat
        (.imm (((mi.getOperand cpolPos).getImm.toNat ||| cpolVal : Nat) : Int))
    else mi
  else mi

/-- The NSA expansion of `getInstruction` (its MIMG block): read the extra
address bytes that follow the main encoding, splice one vector-register
operand per byte directly after `vaddr0`, and consume the containing
words; fail when fewer bytes remain. -/
def mimgNSAStep (env : Env) (res : DecodeStatus) (mi : MCInst)
    (bytesRem : List Nat) : DecodeStatus × MCInst × Nat :=
  let vaddr0Idx := env.getNamedOperandIdx mi.opcode .vaddr0
  let rsrcIdx := env.getNamedOperandIdx mi.opcode .srsrc
  -- `unsigned NSAArgs = RsrcIdx - VAddr0Idx - 1` (32-bit wraparound).
  let nsaArgs := ((rsrcIdx - vaddr0Idx - 1).emod (2 ^ 32)).toNat
  if 0 ≤ vaddr0Idx ∧ 0 < nsaArgs then
    let nsaWords := (nsaArgs + 3) / 4
    if bytesRem.length < 4 * nsaWords then
      (.Fail, mi, 0)
    else
      let mi' := (List.range nsaArgs).foldl (fun m i =>
        let vaddrIdx := vaddr0Idx.toNat + 1 + i
        m.insertAt vaddrIdx
          (createRegOperand env (env.operandRegClass mi.opcode vaddrIdx)
            (bytesRem.getD i 0))) mi
      (res, mi', 4 * nsaWords)
  else (res, mi, 0)

/-- The tied `vdst_in` consistency fixup. -/
def vdstInStep (env : Env) (mi : MCInst) : MCInst :=
  let vdstInIdx := env.getNamedOperandIdx mi.opcode .vdst_in
  if vdstInIdx ≠ -1 then
    let tied := env.getOperandConstraintTiedTo mi.opcode vdstInIdx.toNat
    if tied ≠ -1 ∧ (mi.getNumOperands ≤ vdstInIdx.toNat ∨
        ¬(mi.getOperand vdstInIdx).isReg ∨
        (mi.getOperand vdstInIdx).getReg ≠ (mi.getOperand tied).getReg) then
      let mi1 := if vdstInIdx.toNat < mi.getNumOperands then
          mi.eraseAt vdstInIdx.toNat else mi
      insertNamedMCOperand env mi1 (.reg ((mi1.getOperand tied).getReg)) .vdst_in
    else mi
  else mi

/-- The result of a top-level decode: status, populated instruction and
consumed byte count. -/
structure GetInstResult where
  res : DecodeStatus
  mi : MCInst
  size : Nat
  deriving Repr

/-- `AMDGPUDisassembler::getInstruction`: clamp the window, run the
cascade, apply the normalizer passes gated by instruction-class flags,
and report the consumed byte count — `min(4, available)` when nothing
matched. -/
def getInstruction (env : Env) (bytes_ : List Nat) : GetInstResult :=
  let maxInstBytesNum := min env.targetMaxInstBytes bytes_.length
  let window := bytes_.take maxInstBytesNum
  let c := runCascade env window
  let res := c.res
  let mi := c.mi
  -- Insert dummy unused src2_modifiers for MAC opcodes.
  let mi := if res.toBool ∧ env.isMAC mi.opcode then
      insertNamedMCOperand env mi (.imm 0) .src2_modifiers else mi
  let mi := if res.toBool ∧ env.tsfDS mi.opcode ∧ ¬env.hasGDS then
      insertNamedMCOperand env mi (.imm 0) .gds else mi
  let mi := if res.toBool ∧
      (env.tsfMUBUF mi.opcode ∨ env.tsfFLAT mi.opcode ∨ env.tsfSMRD mi.opcode)
    then cpolStep env mi else mi
  -- GFX90A lost TFE, its place is occupied by ACC.
  let mi := if res.toBool ∧
      (env.tsfMTBUF mi.opcode ∨ env.tsfMUBUF mi.opcode) ∧ env.isGFX90A then
      (let tfeOpIdx := env.getNamedOperandIdx mi.opcode .tfe
       if tfeOpIdx ≠ -1 then mi.insertAt tfeOpIdx.toNat (.imm 0) else mi)
    else mi
  let mi := if res.toBool ∧
      (env.tsfMTBUF mi.opcode ∨ env.tsfMUBUF mi.opcode) then
      (let swzOpIdx := env.getNamedOperandIdx mi.opcode .swz
       if swzOpIdx ≠ -1 then mi.insertAt swzOpIdx.toNat (.imm 0) else mi)
    else mi
  -- MIMG: NSA expansion, then variable-addressing resolution.
  let isMIMG := env.tsfMIMG mi.opcode
  let bytesRem := window.drop c.consumed
  let t := if res.toBool ∧ isMIMG then mimgNSAStep env res mi bytesRem
           else (res, mi, 0)
  let res := t.1
  let mi := t.2.1
  let consumed := c.consumed + t.2.2
  let t2 := if res.toBool ∧ isMIMG then convertMIMGInst env mi else (res, mi)
  let res := if res.toBool ∧ isMIMG then t2.1 else res
  let mi := t2.2
  let t3 := if res.toBool ∧
      (env.tsfVIMAGE mi.opcode ∨ env.tsfVSAMPLE mi.opcode) then
      convertMIMGInst env mi else (res, mi)
  let res := if res.toBool ∧
      (env.tsfVIMAGE mi.opcode ∨ env.tsfVSAMPLE mi.opcode) then t3.1 else res
  let mi := t3.2
  let t4 := if res.toBool ∧ env.tsfEXP mi.opcode then convertEXPInst env mi
            else (res, mi)
  let res := if res.toBool ∧ env.tsfEXP mi.opcode then t4.1 else res
  let mi := t4.2
  let t5 := if res.toBool ∧ env.tsfVINTERP mi.opcode then
      convertVINTERPInst env mi else (res, mi)
  let res := if res.toBool ∧ env.tsfVINTERP mi.opcode then t5.1 else res
  let mi := t5.2
  let t6 := if res.toBool ∧ c.isSDWA then convertSDWAInst env mi else (res, mi)
  let res := if res.toBool ∧ c.isSDWA then t6.1 else res
  let mi := t6.2
  -- Tied vdst_in fixup (not gated on the status in the source).
  let mi := vdstInStep env mi
  let immLitIdx := env.getNamedOperandIdx mi.opcode .immName
  let isSOPK := env.tsfSOPK mi.opcode
  let t7 := if res.toBool ∧ immLitIdx ≠ -1 ∧ ¬isSOPK then
      convertFMAanyK env mi c.lit else (res, mi)
  let res := if res.toBool ∧ immLitIdx ≠ -1 ∧ ¬isSOPK then t7.1 else res
  let mi := t7.2
  -- If the opcode was not recognized we'll assume a size of 4 bytes
  -- (unless there are fewer bytes left).
  { res := res, mi := mi,
    size := if res.toBool then consumed else min 4 bytes_.length }

/-! ## Concrete environments exercising single driver paths -/

/-- An environment whose only populated decode table is `DPP8_64`, and
whose operand metadata locates no FI operand, so the structural match it
reports always fails the DPP8 validity fixup. -/
def dpp8SoftEnv : Env :=
  { tryDecode := fun t _ => if t = .dpp8_64 then some {} else none }

/-- An environment whose operand schema places `vaddr0` at slot 0 and
`srsrc` at slot 2, declaring exactly one extra NSA address operand. -/
def nsaEnv : Env :=
  { getNamedOperandIdx := fun _ n =>
      match n with
      | .vaddr0 => 0
      | .srsrc => 2
      | _ => -1 }

/-- A two-operand instruction as left by the main-encoding table walk. -/
def nsaMI : MCInst := { opcode := 0, operands := [.reg 300, .reg 301] }

/-! ## Bit-level helper lemmas -/

theorem ne_zero_of_testBit {x i : Nat} (h : x.testBit i = true) : x ≠ 0 := by
  intro h0; subst h0; simp at h

theorem or_eq_zero_iff {a b : Nat} : a ||| b = 0 ↔ a = 0 ∧ b = 0 := by
  constructor
  · intro h
    constructor
    · refine Nat.eq_of_testBit_eq fun i => ?_
      have := congrArg (fun t => t.testBit i) h
      simp only [Nat.testBit_or, Nat.zero_testBit, Bool.or_eq_false_iff] at this
      simp [this.1]
    · refine Nat.eq_of_testBit_eq fun i => ?_
      have := congrArg (fun t => t.testBit i) h
      simp only [Nat.testBit_or, Nat.zero_testBit, Bool.or_eq_false_iff] at this
      simp [this.2]
  · rintro ⟨rfl, rfl⟩; rfl

theorem and_or_eq_zero_iff {w a b : Nat} :
    w &&& (a ||| b) = 0 ↔ w &&& a = 0 ∧ w &&& b = 0 := by
  rw [Nat.and_or_distrib_left, or_eq_zero_iff]

theorem or_two_pow_and_ne_zero {w m i : Nat} (h : m.testBit i = true) :
    (w ||| 2 ^ i) &&& m ≠ 0 := by
  refine ne_zero_of_testBit (i := i) ?_
  simp [Nat.testBit_and, Nat.testBit_or, Nat.testBit_two_pow_self, h]

theorem shiftLeft_or_distrib (a b s : Nat) :
    (a ||| b) <<< s = a <<< s ||| b <<< s := by
  refine Nat.eq_of_testBit_eq fun i => ?_
  simp only [Nat.testBit_or, Nat.testBit_shiftLeft]
  cases Nat.decLe s i with
  | isTrue h => simp [h]
  | isFalse h => simp [h]

/-! ## Claim C2: the dual-issue deferred-literal invariant -/

/-- C2.  Within one decode call (fresh pending-literal state), two
mandatory-literal references with equal encoded words both decode to that
literal; with differing words the second reference yields the error
operand (at most one distinct literal per decode call). -/
theorem mandatoryLiteral_dual_issue (v w : Nat) :
    ((decodeMandatoryLiteralConstant {} v).1 = .imm v) ∧
    (w = v →
      (decodeMandatoryLiteralConstant (decodeMandatoryLiteralConstant {} v).2
        w).1 = .imm v) ∧
    (w ≠ v →
      (decodeMandatoryLiteralConstant (decodeMandatoryLiteralConstant {} v).2
          w).1 = errOperand ∧
      ((decodeMandatoryLiteralConstant (decodeMandatoryLiteralConstant {} v).2
          w).1).isValid = false) := by
  refine ⟨?_, ?_, ?_⟩
  · simp [decodeMandatoryLiteralConstant]
  · intro hw; subst hw; simp [decodeMandatoryLiteralConstant]
  · intro hw
    have : v ≠ w := fun h => hw h.symm
    simp [decodeMandatoryLiteralConstant, this, errOperand, MCOperand.isValid]

/-- Witness for C2 at literals 5 / 5 and 5 / 7. -/
theorem mandatoryLiteral_dual_issue_witness :
    (decodeMandatoryLiteralConstant (decodeMandatoryLiteralConstant {} 5).2
        5).1 = .imm 5 ∧
    (decodeMandatoryLiteralConstant (decodeMandatoryLiteralConstant {} 5).2
        7).1 = errOperand :=
  ⟨(mandatoryLiteral_dual_issue 5 5).2.1 rfl,
   ((mandatoryLiteral_dual_issue 5 7).2.2 (by decide)).1⟩

/-! ## Claim C8: the small-integer inline-constant affine map -/

/-- C8.  A raw source field in `[INLINE_INTEGER_C_MIN,
INLINE_INTEGER_C_MAX]` decodes (through the non-VGPR source-operand
cascade) to the signed immediate of the fixed affine map split at
`INLINE_INTEGER_C_POSITIVE_MAX`, and the two halves produce symmetric
values `k` and `-k`. -/
theorem decodeSrcOp_inline_integer (env : Env) (width : OpWidthTy)
    (val : Nat) (ml : Bool) (immW : Nat) (isFP : Bool) (st : LitState)
    (bytes : List Nat) (h1 : INLINE_INTEGER_C_MIN ≤ val)
    (h2 : val ≤ INLINE_INTEGER_C_MAX) :
    (decodeNonVGPRSrcOp env width val ml immW isFP st bytes).1 =
      MCOperand.imm (if val ≤ INLINE_INTEGER_C_POSITIVE_MAX
        then (val : Int) - (INLINE_INTEGER_C_MIN : Nat)
        else ((INLINE_INTEGER_C_POSITIVE_MAX : Nat) : Int) - val) ∧
    (∀ k : Nat, 1 ≤ k → k ≤ 16 →
      decodeIntImmed (INLINE_INTEGER_C_POSITIVE_MAX + k) = .imm (-(k : Int)) ∧
      decodeIntImmed (INLINE_INTEGER_C_MIN + k) = .imm (k : Int)) := by
  simp only [INLINE_INTEGER_C_MIN, INLINE_INTEGER_C_MAX,
    INLINE_INTEGER_C_POSITIVE_MAX] at h1 h2
  constructor
  · have hs : ¬val ≤ env.sgprMax := by
      unfold Env.sgprMax SGPR_MAX_GFX10 SGPR_MAX_SI
      split <;> omega
    have ht : ¬(0 : Int) ≤ getTTmpIdx env val := by
      simp only [getTTmpIdx, TTMP_GFX9PLUS_MIN, TTMP_GFX9PLUS_MAX, TTMP_VI_MIN,
        TTMP_VI_MAX, ite_self]
      rw [if_neg (by rintro ⟨-, hv⟩; omega)]
      norm_num
    unfold decodeNonVGPRSrcOp
    rw [if_neg hs, if_neg ht,
      if_pos (show INLINE_INTEGER_C_MIN ≤ val ∧ val ≤ INLINE_INTEGER_C_MAX by
        simp only [INLINE_INTEGER_C_MIN, INLINE_INTEGER_C_MAX]
        exact ⟨h1, h2⟩)]
    rfl
  · intro k hk1 hk2
    constructor
    · unfold decodeIntImmed INLINE_INTEGER_C_POSITIVE_MAX INLINE_INTEGER_C_MIN
      rw [if_neg (by omega)]
      congr 1
      push_cast
      ring
    · unfold decodeIntImmed INLINE_INTEGER_C_POSITIVE_MAX INLINE_INTEGER_C_MIN
      rw [if_pos (by omega)]
      congr 1
      push_cast
      ring

/-- Witness for C8 at raw value 200 (negative half) on a default
environment. -/
theorem decodeSrcOp_inline_integer_witness :
    (decodeNonVGPRSrcOp {} .OPW32 200 false 32 false {} []).1 =
      MCOperand.imm (-8) ∧ decodeIntImmed 195 = .imm (-3) := by
  have h := decodeSrcOp_inline_integer {} .OPW32 200 false 32 false {} []
    (by decide) (by decide)
  refine ⟨?_, ?_⟩
  · rw [h.1]
    norm_num [INLINE_INTEGER_C_POSITIVE_MAX, INLINE_INTEGER_C_MIN]
  · have h3 := (h.2 3 (by decide) (by decide)).1
    norm_num [INLINE_INTEGER_C_POSITIVE_MAX] at h3
    exact h3

/-! ## Claim C9: kernel-descriptor size and alignment guard -/

/-- C9.  Kernel-descriptor decoding fails outright (emitting nothing) when
the record is not exactly 64 bytes or its address is not 64-byte aligned,
and a successful decode implies both conditions. -/
theorem decodeKernelDescriptor_size_align :
    (∀ (env : Env) (d : List Nat) (addr : Nat),
      d.length ≠ 64 ∨ addr % 64 ≠ 0 →
      decodeKernelDescriptor env d addr = (.Fail, [])) ∧
    (∀ (env : Env) (d : List Nat) (addr : Nat),
      (decodeKernelDescriptor env d addr).1 = .Success →
      d.length = 64 ∧ addr % 64 = 0) := by
  constructor
  · intro env d addr h
    unfold decodeKernelDescriptor
    rw [if_pos h]
  · intro env d addr h
    by_cases hc : d.length ≠ 64 ∨ addr % 64 ≠ 0
    · rw [decodeKernelDescriptor, if_pos hc] at h
      exact absurd h (by decide)
    · push_neg at hc
      exact hc

/-- Witness for C9: the empty record at address 0 is rejected. -/
theorem decodeKernelDescriptor_size_align_witness :
    decodeKernelDescriptor {} [] 0 = (.Fail, []) :=
  decodeKernelDescriptor_size_align.1 {} [] 0 (Or.inl (by decide))

/-! ## Kernel-descriptor stage characterizations

Each word-shaped stage of the descriptor succeeds exactly when its
must-be-zero mask (the fields the active target version rejects) is
clear. -/

theorem masked_shift_eq_zero_iff {w m s : Nat} (hm : m &&& (2 ^ s - 1) = 0) :
    (w &&& m) >>> s = 0 ↔ w &&& m = 0 := by
  rw [Nat.shiftRight_eq_div_pow]
  have h1 : (w &&& m) % 2 ^ s = 0 := by
    rw [← Nat.and_pow_two_sub_one_eq_mod, Nat.and_assoc, hm, Nat.and_zero]
  have h2 := Nat.div_add_mod (w &&& m) (2 ^ s)
  constructor
  · intro h
    rw [h, Nat.mul_zero, Nat.zero_add] at h2
    omega
  · intro h; simp [h]

/-- The fields `decodeCOMPUTE_PGM_RSRC1` requires to be zero. -/
def rsrc1MustMask (env : Env) : Nat :=
  (if env.isGFX10Plus then COMPUTE_PGM_RSRC1_GRANULATED_WAVEFRONT_SGPR_COUNT
   else 0) |||
  COMPUTE_PGM_RSRC1_PRIORITY ||| COMPUTE_PGM_RSRC1_PRIV |||
  COMPUTE_PGM_RSRC1_DEBUG_MODE ||| COMPUTE_PGM_RSRC1_BULKY |||
  COMPUTE_PGM_RSRC1_CDBG_USER |||
  (if ¬env.isGFX9Plus then COMPUTE_PGM_RSRC1_GFX6_GFX8_RESERVED0 else 0) |||
  COMPUTE_PGM_RSRC1_RESERVED1 |||
  (if ¬env.isGFX10Plus then COMPUTE_PGM_RSRC1_GFX6_GFX9_RESERVED2 else 0)

/-- The fields `decodeCOMPUTE_PGM_RSRC2` requires to be zero. -/
def rsrc2MustMask : Nat :=
  COMPUTE_PGM_RSRC2_ENABLE_EXCEPTION_ADDRESS_WATCH |||
  COMPUTE_PGM_RSRC2_ENABLE_EXCEPTION_MEMORY |||
  COMPUTE_PGM_RSRC2_GRANULATED_LDS_SIZE ||| COMPUTE_PGM_RSRC2_RESERVED0

/-- The fields `decodeCOMPUTE_PGM_RSRC3` requires to be zero for the
active version. -/
def rsrc3MustMask (env : Env) : Nat :=
  if env.isGFX90A then
    COMPUTE_PGM_RSRC3_GFX90A_RESERVED0 ||| COMPUTE_PGM_RSRC3_GFX90A_RESERVED1
  else if env.isGFX10Plus then
    (if env.isGFX12Plus then COMPUTE_PGM_RSRC3_GFX12_PLUS_RESERVED0 else 0) |||
    (if env.isGFX11 then 0
     else if env.isGFX12Plus then 0 else COMPUTE_PGM_RSRC3_GFX10_RESERVED1) |||
    COMPUTE_PGM_RSRC3_GFX10_PLUS_RESERVED2 |||
    (if env.isGFX12Plus then 0 else COMPUTE_PGM_RSRC3_GFX10_GFX11_RESERVED3) |||
    COMPUTE_PGM_RSRC3_GFX10_PLUS_RESERVED4 |||
    (if env.isGFX11Plus then 0 else COMPUTE_PGM_RSRC3_GFX10_RESERVED5)
  else 0xFFFFFFFF

/-- The fields the `KERNEL_CODE_PROPERTIES` stage requires to be zero. -/
def kcpMustMask (env : Env) : Nat :=
  KERNEL_CODE_PROPERTY_RESERVED0 |||
  (if env.isGFX9 then KERNEL_CODE_PROPERTY_ENABLE_WAVEFRONT_SIZE32 else 0) |||
  KERNEL_CODE_PROPERTY_RESERVED1

/-- The status component of `decodeCOMPUTE_PGM_RSRC1`, isolated from the
emitted text. -/
def rsrc1Status (env : Env) (w : Nat) : DecodeStatus :=
  if env.isGFX10Plus ∧
      getField w COMPUTE_PGM_RSRC1_GRANULATED_WAVEFRONT_SGPR_COUNT 6 ≠ 0
    then .Fail
  else if w &&& COMPUTE_PGM_RSRC1_PRIORITY ≠ 0 then .Fail
  else if w &&& COMPUTE_PGM_RSRC1_PRIV ≠ 0 then .Fail
  else if w &&& COMPUTE_PGM_RSRC1_DEBUG_MODE ≠ 0 then .Fail
  else if w &&& COMPUTE_PGM_RSRC1_BULKY ≠ 0 then .Fail
  else if w &&& COMPUTE_PGM_RSRC1_CDBG_USER ≠ 0 then .Fail
  else if ¬env.isGFX9Plus ∧ w &&& COMPUTE_PGM_RSRC1_GFX6_GFX8_RESERVED0 ≠ 0
    then .Fail
  else if w &&& COMPUTE_PGM_RSRC1_RESERVED1 ≠ 0 then .Fail
  else if ¬env.isGFX10Plus ∧ w &&& COMPUTE_PGM_RSRC1_GFX6_GFX9_RESERVED2 ≠ 0
    then .Fail
  else .Success

set_option maxHeartbeats 1000000 in
theorem rsrc1_fst (env : Env) (ws32 : Option Bool) (w : Nat) :
    (decodeCOMPUTE_PGM_RSRC1 env ws32 w).1 = rsrc1Status env w := by
  unfold decodeCOMPUTE_PGM_RSRC1 rsrc1Status
  split_ifs <;> rfl

/-- The status component of `decodeCOMPUTE_PGM_RSRC2`. -/
def rsrc2Status (w : Nat) : DecodeStatus :=
  if w &&& COMPUTE_PGM_RSRC2_ENABLE_EXCEPTION_ADDRESS_WATCH ≠ 0 then .Fail
  else if w &&& COMPUTE_PGM_RSRC2_ENABLE_EXCEPTION_MEMORY ≠ 0 then .Fail
  else if w &&& COMPUTE_PGM_RSRC2_GRANULATED_LDS_SIZE ≠ 0 then .Fail
  else if w &&& COMPUTE_PGM_RSRC2_RESERVED0 ≠ 0 then .Fail
  else .Success

theorem rsrc2_fst (env : Env) (w : Nat) :
    (decodeCOMPUTE_PGM_RSRC2 env w).1 = rsrc2Status w := by
  unfold decodeCOMPUTE_PGM_RSRC2 rsrc2Status
  split_ifs <;> rfl

/-- The status component of `decodeCOMPUTE_PGM_RSRC3`. -/
def rsrc3Status (env : Env) (w : Nat) : DecodeStatus :=
  if env.isGFX90A then
    if w &&& COMPUTE_PGM_RSRC3_GFX90A_RESERVED0 ≠ 0 then .Fail
    else if w &&& COMPUTE_PGM_RSRC3_GFX90A_RESERVED1 ≠ 0 then .Fail
    else .Success
  else if env.isGFX10Plus then
    if env.isGFX12Plus ∧ w &&& COMPUTE_PGM_RSRC3_GFX12_PLUS_RESERVED0 ≠ 0 then
      .Fail
    else if ¬env.isGFX11 ∧ ¬env.isGFX12Plus ∧
        w &&& COMPUTE_PGM_RSRC3_GFX10_RESERVED1 ≠ 0 then .Fail
    else if w &&& COMPUTE_PGM_RSRC3_GFX10_PLUS_RESERVED2 ≠ 0 then .Fail
    else if ¬env.isGFX12Plus ∧
        w &&& COMPUTE_PGM_RSRC3_GFX10_GFX11_RESERVED3 ≠ 0 then .Fail
    else if w &&& COMPUTE_PGM_RSRC3_GFX10_PLUS_RESERVED4 ≠ 0 then .Fail
    else if ¬env.isGFX11Plus ∧
        w &&& COMPUTE_PGM_RSRC3_GFX10_RESERVED5 ≠ 0 then .Fail
    else .Success
  else if w ≠ 0 then .Fail
  else .Success

theorem rsrc3_fst (env : Env) (ws32 : Option Bool) (w : Nat) :
    (decodeCOMPUTE_PGM_RSRC3 env ws32 w).1 = rsrc3Status env w := by
  unfold decodeCOMPUTE_PGM_RSRC3 rsrc3Status
  split_ifs <;> rfl

/-- The status component of the `KERNEL_CODE_PROPERTIES` stage. -/
def kcpStatus (env : Env) (w : Nat) : DecodeStatus :=
  if w &&& KERNEL_CODE_PROPERTY_RESERVED0 ≠ 0 then .Fail
  else if env.isGFX9 ∧ w &&& KERNEL_CODE_PROPERTY_ENABLE_WAVEFRONT_SIZE32 ≠ 0
    then .Fail
  else if w &&& KERNEL_CODE_PROPERTY_RESERVED1 ≠ 0 then .Fail
  else .Success

theorem kcp_fst (env : Env) (w : Nat) :
    (decodeKernelCodeProperties env w).1 = kcpStatus env w := by
  unfold decodeKernelCodeProperties kcpStatus
  split_ifs <;> rfl

theorem kernargPreload_fst (w : Nat) :
    (decodeKernargPreload w).1 = .Success := rfl

set_option maxHeartbeats 2000000 in
theorem rsrc1Status_success_iff (env : Env) (w : Nat) :
    rsrc1Status env w = .Success ↔ w &&& rsrc1MustMask env = 0 := by
  have hg : getField w COMPUTE_PGM_RSRC1_GRANULATED_WAVEFRONT_SGPR_COUNT 6 = 0
      ↔ w &&& COMPUTE_PGM_RSRC1_GRANULATED_WAVEFRONT_SGPR_COUNT = 0 := by
    simpa [getField] using
      masked_shift_eq_zero_iff
        (w := w) (m := COMPUTE_PGM_RSRC1_GRANULATED_WAVEFRONT_SGPR_COUNT)
        (s := 6) (by decide)
  unfold rsrc1Status rsrc1MustMask
  cases hA : env.isGFX9Plus <;> cases hB : env.isGFX10Plus <;>
    simp only [hA, hB, Bool.true_eq_false, Bool.false_eq_true, not_false_iff,
      not_true, if_true, if_false, ite_true, ite_false, false_and, true_and,
      Nat.or_zero, Nat.zero_or, and_or_eq_zero_iff] <;>
    split_ifs <;> simp_all [hg]

theorem rsrc1Status_cases (env : Env) (w : Nat) :
    rsrc1Status env w = .Success ∨ rsrc1Status env w = .Fail := by
  unfold rsrc1Status
  split_ifs <;> simp

set_option maxHeartbeats 2000000 in
theorem rsrc2Status_success_iff (w : Nat) :
    rsrc2Status w = .Success ↔ w &&& rsrc2MustMask = 0 := by
  unfold rsrc2Status rsrc2MustMask
  simp only [and_or_eq_zero_iff]
  split_ifs <;> simp_all

theorem rsrc2Status_cases (w : Nat) :
    rsrc2Status w = .Success ∨ rsrc2Status w = .Fail := by
  unfold rsrc2Status
  split_ifs <;> simp

set_option maxHeartbeats 2000000 in
theorem rsrc3Status_success_iff (env : Env) (w : Nat) (hw : w < 2 ^ 32) :
    rsrc3Status env w = .Success ↔ w &&& rsrc3MustMask env = 0 := by
  have hfull : w &&& 0xFFFFFFFF = w := by
    have he : (0xFFFFFFFF : Nat) = 2 ^ 32 - 1 := by norm_num
    rw [he, Nat.and_pow_two_sub_one_eq_mod, Nat.mod_eq_of_lt hw]
  unfold rsrc3Status rsrc3MustMask
  cases hA : env.isGFX90A <;> cases hB : env.isGFX10Plus <;>
    cases hC : env.isGFX11 <;> cases hD : env.isGFX11Plus <;>
    cases hE : env.isGFX12Plus <;>
    simp only [hA, hB, hC, hD, hE, Bool.true_eq_false, Bool.false_eq_true,
      not_false_iff, not_true, if_true, if_false, ite_true, ite_false,
      false_and, true_and, Nat.or_zero, Nat.zero_or, and_or_eq_zero_iff,
      hfull] <;>
    split_ifs <;> simp_all

theorem rsrc3Status_cases (env : Env) (w : Nat) :
    rsrc3Status env w = .Success ∨ rsrc3Status env w = .Fail := by
  unfold rsrc3Status
  split_ifs <;> simp

set_option maxHeartbeats 2000000 in
theorem kcpStatus_success_iff (env : Env) (w : Nat) :
    kcpStatus env w = .Success ↔ w &&& kcpMustMask env = 0 := by
  unfold kcpStatus kcpMustMask
  cases hA : env.isGFX9 <;>
    simp only [hA, Bool.true_eq_false, Bool.false_eq_true, not_false_iff,
      not_true, if_true, if_false, ite_true, ite_false, false_and, true_and,
      Nat.or_zero, Nat.zero_or, and_or_eq_zero_iff] <;>
    split_ifs <;> simp_all

theorem kcpStatus_cases (env : Env) (w : Nat) :
    kcpStatus env w = .Success ∨ kcpStatus env w = .Fail := by
  unfold kcpStatus
  split_ifs <;> simp

theorem rsrc1Status_fail_iff (env : Env) (w : Nat) :
    rsrc1Status env w = .Fail ↔ ¬w &&& rsrc1MustMask env = 0 := by
  constructor
  · intro h hz
    have hs := (rsrc1Status_success_iff env w).mpr hz
    rw [hs] at h; cases h
  · intro h
    rcases rsrc1Status_cases env w with hs | hf
    · exact absurd ((rsrc1Status_success_iff env w).mp hs) h
    · exact hf

theorem rsrc2Status_fail_iff (w : Nat) :
    rsrc2Status w = .Fail ↔ ¬w &&& rsrc2MustMask = 0 := by
  constructor
  · intro h hz
    have hs := (rsrc2Status_success_iff w).mpr hz
    rw [hs] at h; cases h
  · intro h
    rcases rsrc2Status_cases w with hs | hf
    · exact absurd ((rsrc2Status_success_iff w).mp hs) h
    · exact hf

theorem rsrc3Status_fail_iff (env : Env) (w : Nat) (hw : w < 2 ^ 32) :
    rsrc3Status env w = .Fail ↔ ¬w &&& rsrc3MustMask env = 0 := by
  constructor
  · intro h hz
    have hs := (rsrc3Status_success_iff env w hw).mpr hz
    rw [hs] at h; cases h
  · intro h
    rcases rsrc3Status_cases env w with hs | hf
    · exact absurd ((rsrc3Status_success_iff env w hw).mp hs) h
    · exact hf

theorem kcpStatus_fail_iff (env : Env) (w : Nat) :
    kcpStatus env w = .Fail ↔ ¬w &&& kcpMustMask env = 0 := by
  constructor
  · intro h hz
    have hs := (kcpStatus_success_iff env w).mpr hz
    rw [hs] at h; cases h
  · intro h
    rcases kcpStatus_cases env w with hs | hf
    · exact absurd ((kcpStatus_success_iff env w).mp hs) h
    · exact hf

/-! ## Byte and word bounds -/

theorem getD_lt_256 {d : List Nat} (hb : ∀ b ∈ d, b < 256) (n : Nat) :
    d.getD n 0 < 256 := by
  rcases Nat.lt_or_ge n d.length with h | h
  · rw [List.getD_eq_getElem?_getD, List.getElem?_eq_getElem h]
    exact hb _ (List.getElem_mem h)
  · rw [List.getD_eq_getElem?_getD, List.getElem?_eq_none (by omega)]
    simp

theorem shiftLeft_lt_two_pow {b k n : Nat} (hb : b < 2 ^ k) (hkn : k + n ≤ 32) :
    b <<< n < 2 ^ 32 := by
  rw [Nat.shiftLeft_eq]
  calc b * 2 ^ n < 2 ^ k * 2 ^ n := by
        exact Nat.mul_lt_mul_of_lt_of_le hb (Nat.le_refl _)
          (Nat.pos_pow_of_pos n (by omega))
    _ = 2 ^ (k + n) := by rw [Nat.pow_add]
    _ ≤ 2 ^ 32 := Nat.pow_le_pow_right (by omega) hkn

theorem wordAt4_lt {d : List Nat} (hb : ∀ b ∈ d, b < 256) (off : Nat) :
    wordAt d off 4 < 2 ^ 32 := by
  have h0 := getD_lt_256 hb (off + 0)
  have h1 := getD_lt_256 hb (off + 1)
  have h2 := getD_lt_256 hb (off + 2)
  have h3 := getD_lt_256 hb (off + 3)
  have e : wordAt d off 4 =
      ((d.getD (off + 3) 0 <<< 24 ||| d.getD (off + 2) 0 <<< 16) |||
        d.getD (off + 1) 0 <<< 8) ||| d.getD (off + 0) 0 <<< 0 := by
    simp [wordAt, List.range_succ]
  rw [e]
  have p256 : (256 : Nat) = 2 ^ 8 := by norm_num
  rw [p256] at h0 h1 h2 h3
  refine Nat.or_lt_two_pow (Nat.or_lt_two_pow (Nat.or_lt_two_pow ?_ ?_) ?_) ?_
  · exact shiftLeft_lt_two_pow h3 (by omega)
  · exact shiftLeft_lt_two_pow h2 (by omega)
  · exact shiftLeft_lt_two_pow h1 (by omega)
  · exact shiftLeft_lt_two_pow h0 (by omega)

/-- Status dichotomy of the descriptor loop: it never soft-fails. -/
theorem kdLoop_cases (env : Env) (ws32 : Option Bool) (d : List Nat) :
    ∀ cs : List Nat,
      (kdLoop env ws32 d cs).1 = .Success ∨ (kdLoop env ws32 d cs).1 = .Fail := by
  intro cs
  induction cs with
  | nil => left; rfl
  | cons c rest ih =>
    simp only [kdLoop]
    split_ifs
    · right; rfl
    · simpa using ih

/-- The wavefront-size-32 flag `decodeKernelDescriptor` pre-reads. -/
def kdWs32 (env : Env) (d : List Nat) : Option Bool :=
  if env.isGFX10Plus then
    some (getField (wordAt d KERNEL_CODE_PROPERTIES_OFFSET 2)
            KERNEL_CODE_PROPERTY_ENABLE_WAVEFRONT_SIZE32 10 ≠ 0)
  else none

theorem decodeKernelDescriptor_eq (env : Env) (d : List Nat) (addr : Nat) :
    decodeKernelDescriptor env d addr =
      if d.length ≠ 64 ∨ addr % 64 ≠ 0 then (.Fail, [])
      else kdLoop env (kdWs32 env d) d kdOffsets := by
  unfold decodeKernelDescriptor kdWs32
  split_ifs <;> rfl

/-- The loop succeeds exactly when no visited stage fails. -/
theorem kdLoop_success_iff_all (env : Env) (ws32 : Option Bool)
    (d : List Nat) (cs : List Nat) :
    (kdLoop env ws32 d cs).1 = .Success ↔
      ∀ c ∈ cs, (decodeKernelDescriptorDirective env ws32 d c).1 ≠ .Fail := by
  induction cs with
  | nil => simp [kdLoop]
  | cons c rest ih =>
    simp only [kdLoop, List.mem_cons]
    split_ifs with h
    · simp [h]
    · simp only [ih]
      constructor
      · intro hr x hx
        rcases hx with rfl | hx
        · exact h
        · exact hr x hx
      · intro hr x hx
        exact hr x (Or.inr hx)

/-! The status of each visited stage, by offset. -/

theorem kdDir0 (env : Env) (ws32 : Option Bool) (d : List Nat) :
    (decodeKernelDescriptorDirective env ws32 d 0).1 = .Success := rfl

theorem kdDir4 (env : Env) (ws32 : Option Bool) (d : List Nat) :
    (decodeKernelDescriptorDirective env ws32 d 4).1 = .Success := rfl

theorem kdDir8 (env : Env) (ws32 : Option Bool) (d : List Nat) :
    (decodeKernelDescriptorDirective env ws32 d 8).1 = .Success := rfl

theorem kdDir12 (env : Env) (ws32 : Option Bool) (d : List Nat) :
    (decodeKernelDescriptorDirective env ws32 d 12).1 =
      if (List.range 4).all (fun i => d.getD (12 + i) 0 = 0) then .Success
      else .Fail := rfl

theorem kdDir16 (env : Env) (ws32 : Option Bool) (d : List Nat) :
    (decodeKernelDescriptorDirective env ws32 d 16).1 = .Success := rfl

theorem kdDir24 (env : Env) (ws32 : Option Bool) (d : List Nat) :
    (decodeKernelDescriptorDirective env ws32 d 24).1 =
      if (List.range 20).all (fun i => d.getD (24 + i) 0 = 0) then .Success
      else .Fail := rfl

theorem kdDir44 (env : Env) (ws32 : Option Bool) (d : List Nat) :
    (decodeKernelDescriptorDirective env ws32 d 44).1 =
      rsrc3Status env (wordAt d 44 4) := by
  have h : (decodeKernelDescriptorDirective env ws32 d 44).1 =
      (decodeCOMPUTE_PGM_RSRC3 env ws32 (wordAt d 44 4)).1 := rfl
  rw [h, rsrc3_fst]

theorem kdDir48 (env : Env) (ws32 : Option Bool) (d : List Nat) :
    (decodeKernelDescriptorDirective env ws32 d 48).1 =
      rsrc1Status env (wordAt d 48 4) := by
  have h : (decodeKernelDescriptorDirective env ws32 d 48).1 =
      (decodeCOMPUTE_PGM_RSRC1 env ws32 (wordAt d 48 4)).1 := rfl
  rw [h, rsrc1_fst]

theorem kdDir52 (env : Env) (ws32 : Option Bool) (d : List Nat) :
    (decodeKernelDescriptorDirective env ws32 d 52).1 =
      rsrc2Status (wordAt d 52 4) := by
  have h : (decodeKernelDescriptorDirective env ws32 d 52).1 =
      (decodeCOMPUTE_PGM_RSRC2 env (wordAt d 52 4)).1 := rfl
  rw [h, rsrc2_fst]

theorem kdDir56 (env : Env) (ws32 : Option Bool) (d : List Nat) :
    (decodeKernelDescriptorDirective env ws32 d 56).1 =
      kcpStatus env (wordAt d 56 2) := by
  have h : (decodeKernelDescriptorDirective env ws32 d 56).1 =
      (decodeKernelCodeProperties env (wordAt d 56 2)).1 := rfl
  rw [h, kcp_fst]

theorem kdDir58 (env : Env) (ws32 : Option Bool) (d : List Nat) :
    (decodeKernelDescriptorDirective env ws32 d 58).1 = .Success := rfl

theorem kdDir60 (env : Env) (ws32 : Option Bool) (d : List Nat) :
    (decodeKernelDescriptorDirective env ws32 d 60).1 =
      if (List.range 4).all (fun i => d.getD (60 + i) 0 = 0) then .Success
      else .Fail := rfl

/-- Success of a full kernel-descriptor decode, characterized: the record
is 64 aligned bytes, every reserved byte block is zero, and every
must-be-zero field of the four word-shaped stages is clear. -/
theorem decodeKernelDescriptor_success_iff (env : Env) (d : List Nat)
    (addr : Nat) (hb : ∀ b ∈ d, b < 256) :
    (decodeKernelDescriptor env d addr).1 = .Success ↔
      (d.length = 64 ∧ addr % 64 = 0 ∧
       (∀ i < 4, d.getD (12 + i) 0 = 0) ∧
       (∀ i < 20, d.getD (24 + i) 0 = 0) ∧
       wordAt d 44 4 &&& rsrc3MustMask env = 0 ∧
       wordAt d 48 4 &&& rsrc1MustMask env = 0 ∧
       wordAt d 52 4 &&& rsrc2MustMask = 0 ∧
       wordAt d 56 2 &&& kcpMustMask env = 0 ∧
       (∀ i < 4, d.getD (60 + i) 0 = 0)) := by
  rw [decodeKernelDescriptor_eq]
  by_cases hg : d.length ≠ 64 ∨ addr % 64 ≠ 0
  · rw [if_pos hg]
    constructor
    · intro h; cases h
    · rintro ⟨h1, h2, -⟩
      rcases hg with h | h <;> exact absurd (by assumption) h
  · rw [if_neg hg]
    push_neg at hg
    obtain ⟨h64, hal⟩ := hg
    rw [kdLoop_success_iff_all]
    simp only [kdOffsets, List.mem_cons, List.not_mem_nil, or_false,
      forall_eq_or_imp, forall_eq]
    simp only [kdDir0, kdDir4, kdDir8, kdDir12, kdDir16, kdDir24, kdDir44,
      kdDir48, kdDir52, kdDir56, kdDir58, kdDir60]
    simp only [ne_eq, rsrc3Status_fail_iff env _ (wordAt4_lt hb 44),
      rsrc1Status_fail_iff, rsrc2Status_fail_iff, kcpStatus_fail_iff, not_not,
      ite_ne_right_iff, reduceCtorEq, and_true, not_false_eq_true,
      List.all_eq_true, List.mem_range, decide_eq_true_eq, not_true_eq_false,
      false_iff, true_and]
    simp only [h64, hal, true_and]


/-- On success, every line a visited stage emitted is in the loop output. -/
theorem kdLoop_mem (env : Env) (ws32 : Option Bool) (d : List Nat)
    (cs : List Nat) (c : Nat) (x : Directive)
    (hsucc : (kdLoop env ws32 d cs).1 = .Success) (hc : c ∈ cs)
    (hx : x ∈ (decodeKernelDescriptorDirective env ws32 d c).2.1) :
    x ∈ (kdLoop env ws32 d cs).2 := by
  induction cs with
  | nil => cases hc
  | cons c' rest ih =>
    simp only [kdLoop] at hsucc ⊢
    split_ifs at hsucc ⊢ with h
    rcases List.mem_cons.mp hc with rfl | hc'
    · exact List.mem_append.mpr (Or.inl hx)
    · exact List.mem_append.mpr
        (Or.inr (ih (show (kdLoop env ws32 d rest).1 = .Success from hsucc)
          hc'))

/-- The reconstructed `.amdhsa_next_free_vgpr` line is always emitted by
the `COMPUTE_PGM_RSRC1` stage, first. -/
theorem rsrc1_mem_vgpr (env : Env) (ws32 : Option Bool) (w : Nat) :
    ((".amdhsa_next_free_vgpr",
      (getField w COMPUTE_PGM_RSRC1_GRANULATED_WORKITEM_VGPR_COUNT 0 + 1) *
        getVGPREncodingGranule env ws32) : Directive) ∈
      (decodeCOMPUTE_PGM_RSRC1 env ws32 w).2 := by
  unfold decodeCOMPUTE_PGM_RSRC1
  split_ifs <;>
    simp [rsrc1D8, rsrc1D6, rsrc1D5, rsrc1D4, rsrc1D3, rsrc1D2, rsrc1D1]

/-- On a successful `COMPUTE_PGM_RSRC1` stage, `.amdhsa_next_free_sgpr`
is emitted with the granulated count reconstruction. -/
theorem rsrc1D8_mem_sgpr (env : Env) (ws32 : Option Bool) (w : Nat) :
    ((".amdhsa_next_free_sgpr",
      (getField w COMPUTE_PGM_RSRC1_GRANULATED_WAVEFRONT_SGPR_COUNT 6 + 1) *
        getSGPREncodingGranule env) : Directive) ∈ rsrc1D8 env ws32 w := by
  have h2 : ((".amdhsa_next_free_sgpr",
      (getField w COMPUTE_PGM_RSRC1_GRANULATED_WAVEFRONT_SGPR_COUNT 6 + 1) *
        getSGPREncodingGranule env) : Directive) ∈ rsrc1D2 env ws32 w := by
    unfold rsrc1D2
    simp
  unfold rsrc1D8 rsrc1D6 rsrc1D5 rsrc1D4 rsrc1D3
  simp [h2]

set_option maxHeartbeats 1000000 in
theorem rsrc1_mem_sgpr (env : Env) (ws32 : Option Bool) (w : Nat)
    (h : (decodeCOMPUTE_PGM_RSRC1 env ws32 w).1 = .Success) :
    ((".amdhsa_next_free_sgpr",
      (getField w COMPUTE_PGM_RSRC1_GRANULATED_WAVEFRONT_SGPR_COUNT 6 + 1) *
        getSGPREncodingGranule env) : Directive) ∈
      (decodeCOMPUTE_PGM_RSRC1 env ws32 w).2 := by
  unfold decodeCOMPUTE_PGM_RSRC1 at h ⊢
  split_ifs at h ⊢
  exact rsrc1D8_mem_sgpr env ws32 w

/-! ## Claim C6: the next-free-VGPR reconstruction -/

/-- C6.  On every successful 64-byte kernel-descriptor decode, the emitted
`.amdhsa_next_free_vgpr` value is `(G + 1) * granule` for the granulated
workitem VGPR count `G` of `COMPUTE_PGM_RSRC1`, where the granule — 4 or
8 — is fixed by the target version and the wavefront-size-32 flag
pre-read from the same record. -/
theorem kd_next_free_vgpr (env : Env) (d : List Nat) (addr : Nat)
    (hsucc : (decodeKernelDescriptor env d addr).1 = .Success) :
    ((".amdhsa_next_free_vgpr",
      (getField (wordAt d 48 4)
          COMPUTE_PGM_RSRC1_GRANULATED_WORKITEM_VGPR_COUNT 0 + 1) *
        getVGPREncodingGranule env (kdWs32 env d)) : Directive) ∈
      (decodeKernelDescriptor env d addr).2 ∧
    (getVGPREncodingGranule env (kdWs32 env d) = 4 ∨
     getVGPREncodingGranule env (kdWs32 env d) = 8) := by
  rw [decodeKernelDescriptor_eq] at hsucc ⊢
  constructor
  · split_ifs at hsucc ⊢ with h
    refine kdLoop_mem env _ d kdOffsets 48 _ hsucc (by decide) ?_
    exact rsrc1_mem_vgpr env _ (wordAt d 48 4)
  · unfold getVGPREncodingGranule
    rcases kdWs32 env d with _ | b
    · dsimp only
      split_ifs <;> simp
    · dsimp only
      split_ifs <;> simp

/-- Witness for C6: the all-zero descriptor decodes successfully on the
default target and emits `.amdhsa_next_free_vgpr 8` (wave32 granule 8,
`G = 0`). -/
theorem kd_next_free_vgpr_witness :
    ((".amdhsa_next_free_vgpr", 8) : Directive) ∈
      (decodeKernelDescriptor {} (List.replicate 64 0) 0).2 := by
  have h := kd_next_free_vgpr {} (List.replicate 64 0) 0 (by rfl)
  simpa using h.1

theorem decodeKernelDescriptor_cases (env : Env) (d : List Nat) (addr : Nat) :
    (decodeKernelDescriptor env d addr).1 = .Success ∨
      (decodeKernelDescriptor env d addr).1 = .Fail := by
  rw [decodeKernelDescriptor_eq]
  split_ifs
  · right; rfl
  · exact kdLoop_cases env _ d kdOffsets

/-! ## Claim C10: GFX10+ rejects a nonzero granulated SGPR count -/

/-- C10.  On GFX10 and newer, a nonzero granulated wavefront SGPR count
in `COMPUTE_PGM_RSRC1` makes the whole kernel-descriptor decode fail; a
successful decode therefore has a zero count and emits
`.amdhsa_next_free_sgpr` equal to `(0 + 1) *` the SGPR granule. -/
theorem kd_gfx10_sgpr_count (env : Env) (d : List Nat) (addr : Nat)
    (h10 : env.isGFX10Plus = true) :
    (getField (wordAt d 48 4)
        COMPUTE_PGM_RSRC1_GRANULATED_WAVEFRONT_SGPR_COUNT 6 ≠ 0 →
      (decodeKernelDescriptor env d addr).1 = .Fail) ∧
    ((decodeKernelDescriptor env d addr).1 = .Success →
      getField (wordAt d 48 4)
          COMPUTE_PGM_RSRC1_GRANULATED_WAVEFRONT_SGPR_COUNT 6 = 0 ∧
      ((".amdhsa_next_free_sgpr", (0 + 1) * getSGPREncodingGranule env) :
          Directive) ∈ (decodeKernelDescriptor env d addr).2) := by
  have hsu : ∀ hs : (decodeKernelDescriptor env d addr).1 = .Success,
      rsrc1Status env (wordAt d 48 4) = .Success := by
    intro hs
    rw [decodeKernelDescriptor_eq] at hs
    split_ifs at hs with h
    have hall := (kdLoop_success_iff_all env (kdWs32 env d) d kdOffsets).mp
      hs 48 (by decide)
    rw [kdDir48] at hall
    rcases rsrc1Status_cases env (wordAt d 48 4) with h1 | h1
    · exact h1
    · exact absurd h1 hall
  have key : (decodeKernelDescriptor env d addr).1 = .Success →
      getField (wordAt d 48 4)
        COMPUTE_PGM_RSRC1_GRANULATED_WAVEFRONT_SGPR_COUNT 6 = 0 := by
    intro hs
    have hz := (rsrc1Status_success_iff env (wordAt d 48 4)).mp (hsu hs)
    unfold rsrc1MustMask at hz
    rw [if_pos h10] at hz
    have h1 := (and_or_eq_zero_iff.mp
      (and_or_eq_zero_iff.mp
        (and_or_eq_zero_iff.mp
          (and_or_eq_zero_iff.mp
            (and_or_eq_zero_iff.mp
              (and_or_eq_zero_iff.mp
                (and_or_eq_zero_iff.mp
                  (and_or_eq_zero_iff.mp hz).1).1).1).1).1).1).1).1
    simp [getField, h1]
  constructor
  · intro hne
    rcases decodeKernelDescriptor_cases env d addr with hs | hf
    · exact absurd (key hs) hne
    · exact hf
  · intro hs
    refine ⟨key hs, ?_⟩
    have hz := key hs
    have hmem := rsrc1_mem_sgpr env (kdWs32 env d) (wordAt d 48 4)
      (by rw [rsrc1_fst]; exact hsu hs)
    rw [hz] at hmem
    rw [decodeKernelDescriptor_eq] at hs ⊢
    split_ifs at hs ⊢ with h
    exact kdLoop_mem env _ d kdOffsets 48 _ hs (by decide) hmem

/-- Witness for C10: on a GFX10+ target, a descriptor whose granulated
SGPR count field is 1 is rejected. -/
theorem kd_gfx10_sgpr_count_witness :
    (decodeKernelDescriptor { isGFX10Plus := true }
      (List.replicate 48 0 ++ 0x40 :: List.replicate 15 0) 0).1 = .Fail :=
  (kd_gfx10_sgpr_count { isGFX10Plus := true }
    (List.replicate 48 0 ++ 0x40 :: List.replicate 15 0) 0 rfl).1 (by decide)

/-! ## Claim C7: reserved-bit rejection -/

/-- Set bit `p` of the 512-bit record (byte `p / 8`, bit `p % 8`). -/
def flipKdBit (d : List Nat) (p : Nat) : List Nat :=
  d.set (p / 8) (d.getD (p / 8) 0 ||| 2 ^ (p % 8))

/-- The `COMPUTE_PGM_RSRC1` fields documented as reserved for the active
version (`GFX6_GFX8_RESERVED0`, `RESERVED1`, `GFX6_GFX9_RESERVED2`). -/
def rsrc1ReservedMask (env : Env) : Nat :=
  (if ¬env.isGFX9Plus then COMPUTE_PGM_RSRC1_GFX6_GFX8_RESERVED0 else 0) |||
  COMPUTE_PGM_RSRC1_RESERVED1 |||
  (if ¬env.isGFX10Plus then COMPUTE_PGM_RSRC1_GFX6_GFX9_RESERVED2 else 0)

/-- The `COMPUTE_PGM_RSRC2` reserved field (`RESERVED0`, bit 31). -/
def rsrc2ReservedMask : Nat := COMPUTE_PGM_RSRC2_RESERVED0

/-- Bit positions of the 64-byte record documented as reserved for the
active target version: the three reserved byte blocks, the reserved
fields of `COMPUTE_PGM_RSRC1/2/3` and of `KERNEL_CODE_PROPERTIES`
(including `ENABLE_WAVEFRONT_SIZE32`, reserved on GFX9). -/
def kdReservedBit (env : Env) (p : Nat) : Bool :=
  (96 ≤ p ∧ p < 128) ∨
  (192 ≤ p ∧ p < 352) ∨
  (480 ≤ p ∧ p < 512) ∨
  (352 ≤ p ∧ p < 384 ∧ (rsrc3MustMask env).testBit (p - 352)) ∨
  (384 ≤ p ∧ p < 416 ∧ (rsrc1ReservedMask env).testBit (p - 384)) ∨
  (416 ≤ p ∧ p < 448 ∧ rsrc2ReservedMask.testBit (p - 416)) ∨
  (448 ≤ p ∧ p < 464 ∧ (kcpMustMask env).testBit (p - 448))

theorem testBit_mono {m1 m2 i : Nat} (h : m1 &&& m2 = m1)
    (hb : m1.testBit i = true) : m2.testBit i = true := by
  have hc := congrArg (fun t => t.testBit i) h
  simp only [Nat.testBit_and] at hc
  rw [hb] at hc
  simpa using hc

theorem rsrc1Reserved_le (env : Env) :
    rsrc1ReservedMask env &&& rsrc1MustMask env = rsrc1ReservedMask env := by
  unfold rsrc1ReservedMask rsrc1MustMask
  cases hA : env.isGFX9Plus <;> cases hB : env.isGFX10Plus <;>
    simp [hA, hB] <;> decide

theorem rsrc2Reserved_le :
    rsrc2ReservedMask &&& rsrc2MustMask = rsrc2ReservedMask := by decide

theorem wordAt_expand4 (l : List Nat) (off : Nat) :
    wordAt l off 4 =
      ((l.getD (off + 3) 0 <<< 24 ||| l.getD (off + 2) 0 <<< 16) |||
        l.getD (off + 1) 0 <<< 8) ||| l.getD (off + 0) 0 <<< 0 := by
  simp [wordAt, List.range_succ]

theorem wordAt_expand2 (l : List Nat) (off : Nat) :
    wordAt l off 2 =
      l.getD (off + 1) 0 <<< 8 ||| l.getD (off + 0) 0 <<< 0 := by
  simp [wordAt, List.range_succ]

theorem getD_set_self {d : List Nat} {j : Nat} (v : Nat) (h : j < d.length) :
    (d.set j v).getD j 0 = v := by
  rw [List.getD_eq_getElem?_getD, List.getElem?_set_self h]
  rfl

theorem getD_set_ne {d : List Nat} {j n : Nat} (v : Nat) (h : j ≠ n) :
    (d.set j v).getD n 0 = d.getD n 0 := by
  rw [List.getD_eq_getElem?_getD, List.getElem?_set_ne h,
    ← List.getD_eq_getElem?_getD]

theorem or_left_comm (a b c : Nat) : a ||| (b ||| c) = b ||| (a ||| c) := by
  rw [← Nat.or_assoc, Nat.or_comm a b, Nat.or_assoc]

theorem or_two_pow_shiftLeft (b k s : Nat) :
    (b ||| 2 ^ k) <<< s = b <<< s ||| 2 ^ (s + k) := by
  rw [shiftLeft_or_distrib]
  congr 1
  rw [Nat.shiftLeft_eq, ← Nat.pow_add, Nat.add_comm]

/-- Setting a bit of one byte of a 4-byte window sets the corresponding
bit of the little-endian word. -/
theorem wordAt4_set_or (d : List Nat) (off j k : Nat) (hj1 : off ≤ j)
    (hj2 : j < off + 4) (hlen : j < d.length) :
    wordAt (d.set j (d.getD j 0 ||| 2 ^ k)) off 4 =
      wordAt d off 4 ||| 2 ^ (8 * (j - off) + k) := by
  rw [wordAt_expand4, wordAt_expand4]
  have h4 : j = off + 0 ∨ j = off + 1 ∨ j = off + 2 ∨ j = off + 3 := by omega
  rcases h4 with h | h | h | h <;> rw [h]
  · rw [getD_set_self _ (by omega),
      getD_set_ne _ (by omega), getD_set_ne _ (by omega),
      getD_set_ne _ (by omega), or_two_pow_shiftLeft,
      show 8 * (off + 0 - off) + k = 0 + k by omega]
    simp [Nat.or_assoc, Nat.or_comm, or_left_comm]
  · rw [getD_set_self _ (by omega),
      getD_set_ne _ (by omega), getD_set_ne _ (by omega),
      getD_set_ne _ (by omega), or_two_pow_shiftLeft,
      show 8 * (off + 1 - off) + k = 8 + k by omega]
    simp [Nat.or_assoc, Nat.or_comm, or_left_comm]
  · rw [getD_set_self _ (by omega),
      getD_set_ne _ (by omega), getD_set_ne _ (by omega),
      getD_set_ne _ (by omega), or_two_pow_shiftLeft,
      show 8 * (off + 2 - off) + k = 16 + k by omega]
    simp [Nat.or_assoc, Nat.or_comm, or_left_comm]
  · rw [getD_set_self _ (by omega),
      getD_set_ne _ (by omega), getD_set_ne _ (by omega),
      getD_set_ne _ (by omega), or_two_pow_shiftLeft,
      show 8 * (off + 3 - off) + k = 24 + k by omega]
    simp [Nat.or_assoc, Nat.or_comm, or_left_comm]

/-- Setting a bit of one byte of a 2-byte window sets the corresponding
bit of the little-endian word. -/
theorem wordAt2_set_or (d : List Nat) (off j k : Nat) (hj1 : off ≤ j)
    (hj2 : j < off + 2) (hlen : j < d.length) :
    wordAt (d.set j (d.getD j 0 ||| 2 ^ k)) off 2 =
      wordAt d off 2 ||| 2 ^ (8 * (j - off) + k) := by
  rw [wordAt_expand2, wordAt_expand2]
  have h2 : j = off + 0 ∨ j = off + 1 := by omega
  rcases h2 with h | h <;> rw [h]
  · rw [getD_set_self _ (by omega), getD_set_ne _ (by omega),
      or_two_pow_shiftLeft, show 8 * (off + 0 - off) + k = 0 + k by omega]
    simp [Nat.or_assoc, Nat.or_comm, or_left_comm]
  · rw [getD_set_self _ (by omega), getD_set_ne _ (by omega),
      or_two_pow_shiftLeft, show 8 * (off + 1 - off) + k = 8 + k by omega]
    simp [Nat.or_assoc, Nat.or_comm, or_left_comm]

/-- C7.  For an otherwise-valid 64-byte descriptor, setting any bit
documented as reserved for the active target version turns the decode
result from `Success` into `Fail`. -/
theorem kd_reserved_bit_flip (env : Env) (d : List Nat) (addr p : Nat)
    (hb : ∀ b ∈ d, b < 256) (hr : kdReservedBit env p = true)
    (hs : (decodeKernelDescriptor env d addr).1 = .Success) :
    (decodeKernelDescriptor env (flipKdBit d p) addr).1 = .Fail := by
  obtain ⟨h64, hal, hb12, hb24, h44, h48, h52, h56, hb60⟩ :=
    (decodeKernelDescriptor_success_iff env d addr hb).mp hs
  simp only [kdReservedBit, decide_eq_true_eq] at hr
  have hp512 : p < 512 := by
    rcases hr with h | h | h | h | h | h | h <;> omega
  have hjlen : p / 8 < d.length := by rw [h64]; omega
  have hb' : ∀ b ∈ flipKdBit d p, b < 256 := by
    intro b hbm
    rcases List.mem_or_eq_of_mem_set hbm with hm | rfl
    · exact hb b hm
    · have h1 : d.getD (p / 8) 0 < 256 := getD_lt_256 hb _
      have h2 : (2 : Nat) ^ (p % 8) < 256 := by
        calc (2 : Nat) ^ (p % 8) ≤ 2 ^ 7 :=
              Nat.pow_le_pow_right (by omega) (by omega)
          _ < 256 := by norm_num
      have h256 : (256 : Nat) = 2 ^ 8 := by norm_num
      rw [h256] at h1 h2 ⊢
      exact Nat.or_lt_two_pow h1 h2
  rcases decodeKernelDescriptor_cases env (flipKdBit d p) addr with hS | hF
  · exfalso
    obtain ⟨-, -, hc12, hc24, hc44, hc48, hc52, hc56, hc60⟩ :=
      (decodeKernelDescriptor_success_iff env (flipKdBit d p) addr hb').mp hS
    have hflip : ∀ n, p / 8 ≠ n →
        (flipKdBit d p).getD n 0 = d.getD n 0 := fun n hn =>
      getD_set_ne _ hn
    rcases hr with h | h | h | h | h | h | h
    · -- RESERVED0 byte block (bytes 12-15).
      have := hc12 (p / 8 - 12) (by omega)
      rw [show 12 + (p / 8 - 12) = p / 8 by omega,
        show flipKdBit d p = d.set (p / 8) (d.getD (p / 8) 0 ||| 2 ^ (p % 8))
          from rfl,
        getD_set_self _ hjlen] at this
      exact absurd this (ne_zero_of_testBit (i := p % 8)
        (by simp [Nat.testBit_or, Nat.testBit_two_pow_self]))
    · -- RESERVED1 byte block (bytes 24-43).
      have := hc24 (p / 8 - 24) (by omega)
      rw [show 24 + (p / 8 - 24) = p / 8 by omega,
        show flipKdBit d p = d.set (p / 8) (d.getD (p / 8) 0 ||| 2 ^ (p % 8))
          from rfl,
        getD_set_self _ hjlen] at this
      exact absurd this (ne_zero_of_testBit (i := p % 8)
        (by simp [Nat.testBit_or, Nat.testBit_two_pow_self]))
    · -- RESERVED3 byte block (bytes 60-63).
      have := hc60 (p / 8 - 60) (by omega)
      rw [show 60 + (p / 8 - 60) = p / 8 by omega,
        show flipKdBit d p = d.set (p / 8) (d.getD (p / 8) 0 ||| 2 ^ (p % 8))
          from rfl,
        getD_set_self _ hjlen] at this
      exact absurd this (ne_zero_of_testBit (i := p % 8)
        (by simp [Nat.testBit_or, Nat.testBit_two_pow_self]))
    · -- COMPUTE_PGM_RSRC3 reserved fields.
      rw [show flipKdBit d p = d.set (p / 8) (d.getD (p / 8) 0 ||| 2 ^ (p % 8))
          from rfl,
        wordAt4_set_or d 44 (p / 8) (p % 8) (by omega) (by omega) hjlen,
        show 8 * (p / 8 - 44) + p % 8 = p - 352 by omega] at hc44
      exact or_two_pow_and_ne_zero h.2.2 hc44
    · -- COMPUTE_PGM_RSRC1 reserved fields.
      rw [show flipKdBit d p = d.set (p / 8) (d.getD (p / 8) 0 ||| 2 ^ (p % 8))
          from rfl,
        wordAt4_set_or d 48 (p / 8) (p % 8) (by omega) (by omega) hjlen,
        show 8 * (p / 8 - 48) + p % 8 = p - 384 by omega] at hc48
      exact or_two_pow_and_ne_zero
        (testBit_mono (rsrc1Reserved_le env) h.2.2) hc48
    · -- COMPUTE_PGM_RSRC2 reserved field.
      rw [show flipKdBit d p = d.set (p / 8) (d.getD (p / 8) 0 ||| 2 ^ (p % 8))
          from rfl,
        wordAt4_set_or d 52 (p / 8) (p % 8) (by omega) (by omega) hjlen,
        show 8 * (p / 8 - 52) + p % 8 = p - 416 by omega] at hc52
      exact or_two_pow_and_ne_zero
        (testBit_mono rsrc2Reserved_le h.2.2) hc52
    · -- KERNEL_CODE_PROPERTIES reserved fields.
      rw [show flipKdBit d p = d.set (p / 8) (d.getD (p / 8) 0 ||| 2 ^ (p % 8))
          from rfl,
        wordAt2_set_or d 56 (p / 8) (p % 8) (by omega) (by omega) hjlen,
        show 8 * (p / 8 - 56) + p % 8 = p - 448 by omega] at hc56
      exact or_two_pow_and_ne_zero h.2.2 hc56
  · exact hF

/-- Witness for C7: flipping reserved bit 96 (first byte of the reserved
block at offset 12) of the all-zero descriptor flips the decode from
`Success` to `Fail`. -/
theorem kd_reserved_bit_flip_witness :
    (decodeKernelDescriptor {} (flipKdBit (List.replicate 64 0) 96) 0).1 =
      .Fail :=
  kd_reserved_bit_flip {} (List.replicate 64 0) 0 96
    (by intro b hbm; rcases List.eq_of_mem_replicate hbm with rfl; omega)
    (by decide) (by rfl)

/-! ## The cascade on exhaustion (C1) -/

/-- When every table lookup misses, every attempt of the cascade passes
to the next one and the cascade returns the failure default. -/
theorem runCascade_exhausted (env : Env) (window : List Nat)
    (hnone : ∀ t w, env.tryDecode t w = none) :
    runCascade env window = {} := by
  simp [runCascade, plainAttempt, dpp8Attempt, gfx10B64Attempt,
    dppVOPAttempt, dppVOPCAttempt, sdwaAttempt, tryDecode2, hnone]

/-- C1.  A top-level decode over a nonempty byte window that matches no
table of the cascade reports status `Fail` with a consumed-byte count of
`min 4 (window length)`, which is never zero. -/
theorem getInstruction_exhausted (env : Env) (bytes_ : List Nat)
    (hl : 1 ≤ bytes_.length)
    (hnone : ∀ t w, env.tryDecode t w = none) :
    (getInstruction env bytes_).res = .Fail ∧
    (getInstruction env bytes_).size = min 4 bytes_.length ∧
    (getInstruction env bytes_).size ≠ 0 := by
  have hc : ∀ w, runCascade env w = {} :=
    fun w => runCascade_exhausted env w hnone
  have hres : (getInstruction env bytes_).res = .Fail := by
    simp [getInstruction, hc, DecodeStatus.toBool]
  have hsize : (getInstruction env bytes_).size = min 4 bytes_.length := by
    simp [getInstruction, hc, DecodeStatus.toBool]
  exact ⟨hres, hsize, by rw [hsize]; omega⟩

/-- Witness for C1 on the one-byte window and the empty table set. -/
theorem getInstruction_exhausted_witness :
    1 ≤ ([0] : List Nat).length ∧
    ((getInstruction {} [0]).res = .Fail ∧
     (getInstruction {} [0]).size = min 4 ([0] : List Nat).length ∧
     (getInstruction {} [0]).size ≠ 0) :=
  ⟨by decide, getInstruction_exhausted {} [0] (by decide) (fun _ _ => rfl)⟩

/-! ## DPP8 SoftFail continues the cascade (C3) -/

/-- The status returned by `convertDPP8Inst` is exactly the outcome of
the validity check on the converted instruction. -/
theorem convertDPP8Inst_snd (env : Env) (mi : MCInst) :
    (convertDPP8Inst env mi).2 =
      if isValidDPP8 env (convertDPP8Inst env mi).1 then .Success
      else .SoftFail := rfl

/-- C3.  A structural DPP8 match whose conversion reports `SoftFail`
(the FI operand carries neither confirmation literal) is discarded: the
attempt returns the rest of the cascade unchanged, and when every
populated table behaves this way the whole cascade exhausts to `Fail`
instead of terminating with the partial instruction. -/
theorem dpp8_softFail_continues (env : Env) (h : TryHit) (wordLen : Nat)
    (next : CascadeOut) (window : List Nat)
    (hsf : (convertDPP8Inst env h.mi).2 = .SoftFail)
    (h1 : ∀ t w, t ≠ TableId.dpp8_64 → env.tryDecode t w = none)
    (h2 : ∀ w h', env.tryDecode .dpp8_64 w = some h' →
      (convertDPP8Inst env h'.mi).2 = .SoftFail) :
    dpp8Attempt env (some h) wordLen next = next ∧
    isValidDPP8 env (convertDPP8Inst env h.mi).1 = false ∧
    (runCascade env window).res = .Fail := by
  refine ⟨?_, ?_, ?_⟩
  · simp [dpp8Attempt, hsf]
  · by_contra hv
    rw [Bool.not_eq_false] at hv
    rw [convertDPP8Inst_snd, if_pos hv] at hsf
    exact DecodeStatus.noConfusion hsf
  · rcases hq : env.tryDecode .dpp8_64 (leWord window 8) with _ | hh
    · simp [runCascade, plainAttempt, dpp8Attempt, gfx10B64Attempt,
        dppVOPAttempt, dppVOPCAttempt, sdwaAttempt, tryDecode2, h1, hq]
    · have hsf2 := h2 _ _ hq
      simp [runCascade, plainAttempt, dpp8Attempt, gfx10B64Attempt,
        dppVOPAttempt, dppVOPCAttempt, sdwaAttempt, tryDecode2, h1, hq, hsf2]

/-- Witness for C3: the default instruction has no FI operand, so the
`DPP8_64` match of `dpp8SoftEnv` soft-fails and the cascade over an
8-byte window reports `Fail`. -/
theorem dpp8_softFail_continues_witness :
    (convertDPP8Inst dpp8SoftEnv ({} : TryHit).mi).2 = .SoftFail ∧
    (dpp8Attempt dpp8SoftEnv (some ({} : TryHit)) 8 ({} : CascadeOut) =
        ({} : CascadeOut) ∧
      isValidDPP8 dpp8SoftEnv
        (convertDPP8Inst dpp8SoftEnv ({} : TryHit).mi).1 = false ∧
      (runCascade dpp8SoftEnv (List.replicate 8 0)).res = .Fail) :=
  ⟨rfl, dpp8_softFail_continues dpp8SoftEnv {} 8 {} (List.replicate 8 0) rfl
    (fun t w ht => by simp [dpp8SoftEnv, ht])
    (fun w h' hw => by
      have h0 : ({} : TryHit) = h' := by simpa [dpp8SoftEnv] using hw
      rw [← h0]
      rfl)⟩

/-! ## NSA expansion (C4) -/

/-- Inserting at the boundary of an append splices the element between
the two halves. -/
theorem insertIdx_append_left {α : Type} (l1 l2 : List α) (a : α) :
    (l1 ++ l2).insertIdx l1.length a = l1 ++ a :: l2 := by
  induction l1 with
  | nil => rfl
  | cons x xs ih => simpa [List.insertIdx_succ_cons] using ih

/-- Folding insertions at consecutive positions starting inside the
operand list splices the generated block at that position. -/
theorem foldl_insertAt_splice (mi : MCInst) (p : Nat) (f : Nat → MCOperand)
    (hp : p ≤ mi.operands.length) (n : Nat) :
    (List.range n).foldl (fun m i => m.insertAt (p + i) (f i)) mi =
      { mi with operands :=
          mi.operands.take p ++ (List.range n).map f ++
            mi.operands.drop p } := by
  induction n with
  | zero => simp
  | succ n ih =>
    rw [List.range_succ, List.foldl_append, ih, List.foldl_cons,
      List.foldl_nil]
    simp only [MCInst.insertAt]
    congr 1
    have hlen : (mi.operands.take p ++ (List.range n).map f).length = p + n := by
      simp [List.length_take, Nat.min_eq_left hp]
    rw [← hlen, insertIdx_append_left]
    simp [List.append_assoc]

/-- C4.  An instruction declaring `N ≥ 1` extra NSA address operands
(the slot gap between `vaddr0` and `srsrc`): with fewer than
`4 * ceil(N/4)` bytes left after the main encoding the step fails the
decode; with enough bytes it splices `N` vector-register operands, one
per trailing byte, directly after `vaddr0` and consumes `4 * ceil(N/4)`
bytes. -/
theorem mimgNSAStep_spec (env : Env) (res : DecodeStatus) (mi : MCInst)
    (bytesRem : List Nat) (N : Nat)
    (hv : 0 ≤ env.getNamedOperandIdx mi.opcode .vaddr0)
    (hN : ((env.getNamedOperandIdx mi.opcode .srsrc -
        env.getNamedOperandIdx mi.opcode .vaddr0 - 1).emod (2 ^ 32)).toNat = N)
    (hN1 : 1 ≤ N)
    (hp : (env.getNamedOperandIdx mi.opcode .vaddr0).toNat + 1 ≤
      mi.operands.length) :
    (bytesRem.length < 4 * ((N + 3) / 4) →
      mimgNSAStep env res mi bytesRem = (.Fail, mi, 0)) ∧
    (4 * ((N + 3) / 4) ≤ bytesRem.length →
      (mimgNSAStep env res mi bytesRem).1 = res ∧
      (mimgNSAStep env res mi bytesRem).2.2 = 4 * ((N + 3) / 4) ∧
      (mimgNSAStep env res mi bytesRem).2.1.opcode = mi.opcode ∧
      (mimgNSAStep env res mi bytesRem).2.1.operands =
        mi.operands.take
            ((env.getNamedOperandIdx mi.opcode .vaddr0).toNat + 1) ++
          (List.range N).map (fun i =>
            createRegOperand env
              (env.operandRegClass mi.opcode
                ((env.getNamedOperandIdx mi.opcode .vaddr0).toNat + 1 + i))
              (bytesRem.getD i 0)) ++
          mi.operands.drop
            ((env.getNamedOperandIdx mi.opcode .vaddr0).toNat + 1)) := by
  constructor
  · intro hlt
    simp only [mimgNSAStep, hN]
    rw [if_pos ⟨hv, hN1⟩, if_pos hlt]
  · intro hge
    have hsp := foldl_insertAt_splice mi
      ((env.getNamedOperandIdx mi.opcode .vaddr0).toNat + 1)
      (fun i => createRegOperand env
        (env.operandRegClass mi.opcode
          ((env.getNamedOperandIdx mi.opcode .vaddr0).toNat + 1 + i))
        (bytesRem.getD i 0)) hp N
    simp only [mimgNSAStep, hN]
    rw [if_pos ⟨hv, hN1⟩, if_neg (by omega)]
    refine ⟨rfl, rfl, ?_, ?_⟩ <;> rw [hsp]

/-- Witness for C4 with `N = 1`: an empty trailer fails the decode and a
4-byte trailer consumes exactly one word. -/
theorem mimgNSAStep_spec_witness :
    mimgNSAStep nsaEnv .Success nsaMI [] = (.Fail, nsaMI, 0) ∧
    (mimgNSAStep nsaEnv .Success nsaMI [7, 0, 0, 0]).2.2 = 4 := by
  have h1 := mimgNSAStep_spec nsaEnv .Success nsaMI [] 1 (by decide)
    (by decide) (by decide) (by decide)
  have h2 := mimgNSAStep_spec nsaEnv .Success nsaMI [7, 0, 0, 0] 1 (by decide)
    (by decide) (by decide) (by decide)
  exact ⟨h1.1 (by decide), (h2.2 (by decide)).2.1⟩

/-! ## MIMG variable-addressing frame property (C5) -/

/-- C5.  When the instruction is not a BVH intersect-ray form,
`convertMIMGInst` returns the instruction exactly as decoded with status
`Success` both when the computed (data size, address size) pair equals
the table assumption and when the variant lookup finds no opcode: no
opcode substitution, no operand change, no error. -/
theorem convertMIMGInst_frame (env : Env) (mi : MCInst)
    (hbvh : (env.mimgBaseOpcodeInfo
        (env.mimgInfo mi.opcode).baseOpcode).bvh = false)
    (hcase :
      (mimgDstSize env mi = (env.mimgInfo mi.opcode).vdataDwords ∧
        (mimgGfx10 env mi).1 = (env.mimgInfo mi.opcode).vaddrDwords) ∨
      env.getMIMGOpcode (env.mimgInfo mi.opcode).baseOpcode
        (env.mimgInfo mi.opcode).mimgEncoding (mimgDstSize env mi)
        (mimgGfx10 env mi).1 = none) :
    convertMIMGInst env mi = (.Success, mi) := by
  simp only [convertMIMGInst]
  rw [if_neg (by simp [hbvh])]
  by_cases hearly : (mimgGfx10 env mi).2.2.2 = true
  · rw [if_pos hearly]
  · rw [if_neg hearly]
    rcases hcase with ⟨hd, ha⟩ | hn
    · rw [if_pos ⟨hd, ha⟩]
    · by_cases hsz : mimgDstSize env mi = (env.mimgInfo mi.opcode).vdataDwords ∧
          (mimgGfx10 env mi).1 = (env.mimgInfo mi.opcode).vaddrDwords
      · rw [if_pos hsz]
      · rw [if_neg hsz, hn]

/-- Witness for C5: the default MIMG metadata is not BVH and its variant
lookup is empty, so the default instruction passes through untouched. -/
theorem convertMIMGInst_frame_witness :
    (({} : Env).mimgBaseOpcodeInfo
        ((({} : Env).mimgInfo ({} : MCInst).opcode).baseOpcode)).bvh = false ∧
    convertMIMGInst {} {} = (.Success, {}) :=
  ⟨rfl, convertMIMGInst_frame {} {} rfl (Or.inr rfl)⟩

end AMDGPUDisas
